import Mathlib

/-!
# Verification of the PriceMatchEngine house-brand matching core

This file gives a shallow embedding of the matching engine implemented in
`apps/house_brand_engine/app.py` and proves properties of it.

Modelling conventions:
* Python strings are modelled as `List Char` (the code works on Unicode code
  points; Lean `Char` is a code point).  Wrapper functions accept `String`.
* `str.upper()` / `str.lower()` are modelled on the ASCII range (the Thai
  characters appearing in the data have no case, so on the strings handled by
  the engine the ASCII fold is exact).
* Python `float` arithmetic is modelled by exact rational arithmetic over `ℚ`;
  `int(x)` for `x ≥ 0` is modelled by the floor.
* `re` regular expressions are modelled by a small backtracking engine with
  Python's semantics (leftmost match, ordered alternation, greedy
  quantifiers); `\d`, `\s` and character classes are read over the ASCII
  range, `\w` and `\b` additionally count Thai letters and digits as word
  characters as CPython does.
-/

set_option maxHeartbeats 4000000
set_option maxRecDepth 10000

/-! ## Python string primitives -/

/-- Python `str.upper()` on one character, ASCII range. -/
def pyUpperChar (c : Char) : Char :=
  if 97 ≤ c.toNat ∧ c.toNat ≤ 122 then Char.ofNat (c.toNat - 32) else c

/-- Python `str.lower()` on one character, ASCII range. -/
def pyLowerChar (c : Char) : Char :=
  if 65 ≤ c.toNat ∧ c.toNat ≤ 90 then Char.ofNat (c.toNat + 32) else c

/-- Characters removed by Python `str.strip()` (ASCII whitespace). -/
def isPySpace (c : Char) : Bool :=
  c = ' ' || c = '\t' || c = '\n' || c = '\r' || c = '\x0b' || c = '\x0c'

/-- `str.upper()` over a character list. -/
def upperL (l : List Char) : List Char := l.map pyUpperChar

/-- `str.lower()` over a character list. -/
def lowerL (l : List Char) : List Char := l.map pyLowerChar

/-- Is `n` a (character-list) prefix of `l`?  (Python slice comparison.) -/
def pfx : List Char → List Char → Bool
  | [], _ => true
  | _ :: _, [] => false
  | a :: as, b :: bs => a == b && pfx as bs

/-- Python's substring test `needle in haystack`. -/
def subIn (n : List Char) : List Char → Bool
  | [] => n.isEmpty
  | c :: cs => pfx n (c :: cs) || subIn n cs

/-- Python `haystack.replace(k, v)` (all occurrences, left to right).
An empty `k` is treated as "no occurrence" (the engine never calls
`replace` with an empty pattern). -/
def replaceAll (k v : List Char) : List Char → List Char
  | [] => []
  | c :: cs =>
    if pfx k (c :: cs) && !k.isEmpty then
      v ++ replaceAll k v (List.drop (k.length - 1) cs)
    else
      c :: replaceAll k v cs
termination_by l => l.length
decreasing_by
  · simp only [List.length_cons, List.length_drop]
    omega
  · simp only [List.length_cons]
    omega

/-- Python `str.strip()`. -/
def trimL (l : List Char) : List Char :=
  (((l.dropWhile isPySpace).reverse.dropWhile isPySpace)).reverse

/-- Stable insertion used by `insSort`. -/
def insertS (le : α → α → Bool) (x : α) : List α → List α
  | [] => [x]
  | y :: ys => if le y x then y :: insertS le x ys else x :: y :: ys

/-- Stable sort (Python `list.sort` / `sorted` are stable); ascending by
`le`.  Elements are inserted left to right, each after existing equals. -/
def insSort (le : α → α → Bool) (l : List α) : List α :=
  l.foldl (fun acc x => insertS le x acc) []

/-- Python `enumerate`. -/
def enumL (l : List α) : List (Nat × α) := l.enum

/-- First decimal run of `(\d+(\.\d+)?)` as an exact rational, reading the
digits of a Python `float(...)` literal. -/
def digitsToNat (l : List Char) : Nat :=
  l.foldl (fun acc c => acc * 10 + (c.toNat - 48)) 0

/-- Exact fraction `n / d` standing for a Python float value. The core
`Rat` operations do not reduce inside the kernel, so float arithmetic is
embedded as explicit unnormalized fractions whose operations are plain
`Int`/`Nat` arithmetic; `PQ.toQ` gives the rational a fraction denotes.
Every fraction built by the engine has a positive denominator. -/
structure PQ where
  n : Int
  d : Nat
  deriving DecidableEq

def pqNat (k : Nat) : PQ := ⟨k, 1⟩

def PQ.add (a b : PQ) : PQ := ⟨a.n * b.d + b.n * a.d, a.d * b.d⟩

def PQ.sub (a b : PQ) : PQ := ⟨a.n * b.d - b.n * a.d, a.d * b.d⟩

def PQ.mul (a b : PQ) : PQ := ⟨a.n * b.n, a.d * b.d⟩

def PQ.div (a b : PQ) : PQ :=
  if b.n < 0 then ⟨-(a.n * b.d), a.d * (-b.n).toNat⟩
  else ⟨a.n * b.d, a.d * b.n.toNat⟩

def PQ.absv (a : PQ) : PQ := ⟨|a.n|, a.d⟩

def PQ.le (a b : PQ) : Bool := decide (a.n * b.d ≤ b.n * a.d)

def PQ.lt (a b : PQ) : Bool := decide (a.n * b.d < b.n * a.d)

/-- Value equality of fractions (float `==`). -/
def PQ.eqv (a b : PQ) : Bool := a.n * b.d == b.n * a.d

def PQ.maxv (a b : PQ) : PQ := if PQ.le a b then b else a

def PQ.minv (a b : PQ) : PQ := if PQ.le a b then a else b

/-- Python `int(x)`: truncation toward zero. -/
def PQ.trunc (a : PQ) : Int :=
  if 0 ≤ a.n then Int.ediv a.n a.d else -(Int.ediv (-a.n) a.d)

/-- The rational value a fraction denotes. -/
def PQ.toQ (a : PQ) : ℚ := (a.n : ℚ) / (a.d : ℚ)

/-- `float(s)` for strings of shape `digits` or `digits.digits`, as an
exact fraction. -/
def parsePQ (l : List Char) : PQ :=
  let intPart := l.takeWhile (fun c => c.isDigit)
  let rest := l.dropWhile (fun c => c.isDigit)
  match rest with
  | '.' :: fs =>
    let fd := fs.takeWhile (fun c => c.isDigit)
    ⟨digitsToNat intPart * 10 ^ fd.length + digitsToNat fd, 10 ^ fd.length⟩
  | _ => ⟨digitsToNat intPart, 1⟩
/-- `int(s)` for a digit string. -/
def parseNat (l : List Char) : Nat := digitsToNat (l.takeWhile (fun c => c.isDigit))

/-- Decimal rendering of a natural number (Python `str(int)` / f-string). -/
def natToStr (n : Nat) : List Char := (Nat.toDigits 10 n)

/-! ### Basic lemmas about the primitives -/

theorem pyUpperChar_fix_of_high (c : Char) (h : ¬(97 ≤ c.toNat ∧ c.toNat ≤ 122)) :
    pyUpperChar c = c := by
  simp [pyUpperChar, h]

theorem toNat_ofNat_sub32 (n : Nat) (h1 : 97 ≤ n) (h2 : n ≤ 122) :
    (Char.ofNat (n - 32)).toNat = n - 32 := by
  interval_cases n <;> decide

theorem pyUpperChar_idem (c : Char) : pyUpperChar (pyUpperChar c) = pyUpperChar c := by
  by_cases h : 97 ≤ c.toNat ∧ c.toNat ≤ 122
  · have hv : (pyUpperChar c).toNat = c.toNat - 32 := by
      simp only [pyUpperChar, if_pos h]
      exact toNat_ofNat_sub32 c.toNat h.1 h.2
    have hnot : ¬(97 ≤ (pyUpperChar c).toNat ∧ (pyUpperChar c).toNat ≤ 122) := by
      rw [hv]; omega
    exact pyUpperChar_fix_of_high _ hnot
  · simp only [pyUpperChar_fix_of_high c h]

theorem upperL_fix (l : List Char) (h : ∀ c ∈ l, pyUpperChar c = c) : upperL l = l := by
  induction l with
  | nil => rfl
  | cons c cs ih =>
    have hc := h c (List.mem_cons_self c cs)
    have hcs := ih (fun d hd => h d (List.mem_cons_of_mem c hd))
    simp only [upperL, List.map_cons] at *
    rw [hc, hcs]

theorem mem_upperL (c : Char) (l : List Char) (h : c ∈ upperL l) :
    ∃ d ∈ l, c = pyUpperChar d := by
  simp only [upperL, List.mem_map] at h
  obtain ⟨d, hd, hcd⟩ := h
  exact ⟨d, hd, hcd.symm⟩

theorem mem_insertS (le : α → α → Bool) (a x : α) (l : List α) :
    x ∈ insertS le a l ↔ x = a ∨ x ∈ l := by
  induction l with
  | nil => simp [insertS]
  | cons y ys ih =>
    simp only [insertS]
    split
    · simp only [List.mem_cons, ih]
      try tauto
    · simp only [List.mem_cons]
      try tauto

theorem mem_insSort_aux (le : α → α → Bool) (l : List α) (acc : List α) (x : α) :
    x ∈ l.foldl (fun acc y => insertS le y acc) acc ↔ x ∈ acc ∨ x ∈ l := by
  induction l generalizing acc with
  | nil => simp
  | cons y ys ih =>
    simp only [List.foldl_cons, ih, mem_insertS, List.mem_cons]
    tauto

theorem mem_insSort (le : α → α → Bool) (l : List α) (x : α) :
    x ∈ insSort le l ↔ x ∈ l := by
  simp [insSort, mem_insSort_aux]

theorem mem_of_mem_takeL (n : Nat) (l : List α) (x : α) (h : x ∈ l.take n) : x ∈ l := by
  induction l generalizing n with
  | nil => simp at h
  | cons y ys ih =>
    cases n with
    | zero => simp at h
    | succ m =>
      simp only [List.take_succ_cons, List.mem_cons] at h
      rcases h with h | h
      · simp [h]
      · simp [ih m h]

theorem mem_enumL (l : List α) (p : Nat × α) (h : p ∈ enumL l) :
    l.get? p.1 = some p.2 := by
  have := List.mem_enum_iff_getElem?.mp h
  simpa [List.get?_eq_getElem?] using this

/-! ## Lemmas about `subIn` and `replaceAll` (used for C9) -/

theorem subIn_cons_of (n : List Char) (c : Char) (cs : List Char)
    (h : subIn n cs = true) : subIn n (c :: cs) = true := by
  simp only [subIn, Bool.or_eq_true]
  exact Or.inr h

theorem subIn_drop (n : List Char) :
    ∀ (m : Nat) (l : List Char), subIn n (List.drop m l) = true → subIn n l = true := by
  intro m
  induction m with
  | zero => intro l h; simpa using h
  | succ m ih =>
    intro l h
    cases l with
    | nil => simpa using h
    | cons c cs => exact subIn_cons_of n c cs (ih cs h)

theorem subIn_append_right (n a b : List Char) (hne : n ≠ [])
    (hav : ∀ c ∈ n, c ∉ a) (h : subIn n (a ++ b) = true) : subIn n b = true := by
  induction a with
  | nil => simpa using h
  | cons x xs ih =>
    simp only [List.cons_append, subIn, Bool.or_eq_true] at h
    rcases h with h | h
    · cases n with
      | nil => exact absurd rfl hne
      | cons nh nt =>
        simp only [pfx, Bool.and_eq_true, beq_iff_eq] at h
        exact absurd (List.mem_cons_self x xs) (h.1 ▸ hav nh (List.mem_cons_self nh nt))
    · exact ih (fun c hc hm => hav c hc (List.mem_cons_of_mem x hm)) h

theorem pfx_replaceAll (k' v' : List Char) (hv : v' ≠ []) :
    ∀ (l n : List Char), n ≠ [] → (∀ c ∈ n, c ∉ v') →
      pfx n (replaceAll k' v' l) = true → pfx n l = true := by
  intro l
  induction l with
  | nil => intro n hn _ h; simpa [replaceAll] using h
  | cons c cs ih =>
    intro n hn hav h
    rw [replaceAll] at h
    by_cases hg : (pfx k' (c :: cs) && !k'.isEmpty) = true
    · rw [if_pos hg] at h
      cases n with
      | nil => exact absurd rfl hn
      | cons nh nt =>
        cases v' with
        | nil => exact absurd rfl hv
        | cons vh vt =>
          simp only [List.cons_append, pfx, Bool.and_eq_true, beq_iff_eq] at h
          exact absurd (List.mem_cons_self vh vt)
            (h.1 ▸ hav nh (List.mem_cons_self nh nt))
    · rw [if_neg hg] at h
      cases n with
      | nil => exact absurd rfl hn
      | cons nh nt =>
        simp only [pfx, Bool.and_eq_true, beq_iff_eq] at h ⊢
        refine ⟨h.1, ?_⟩
        cases nt with
        | nil => rfl
        | cons m ms =>
          exact ih (m :: ms) (by simp) (fun d hd => hav d (List.mem_cons_of_mem nh hd)) h.2

theorem subIn_replaceAll (k' v' : List Char) (hk : k' ≠ []) (hv : v' ≠ []) :
    ∀ (fuel : Nat) (l n : List Char), l.length ≤ fuel → n ≠ [] → (∀ c ∈ n, c ∉ v') →
      subIn n (replaceAll k' v' l) = true → subIn n l = true := by
  intro fuel
  induction fuel with
  | zero =>
    intro l n hl hn _ h
    have : l = [] := List.length_eq_zero.mp (Nat.le_zero.mp hl)
    subst this
    simpa [replaceAll, List.isEmpty_iff] using h
  | succ f ih =>
    intro l n hl hn hav h
    cases l with
    | nil => simpa [replaceAll, List.isEmpty_iff] using h
    | cons c cs =>
      rw [replaceAll] at h
      by_cases hg : (pfx k' (c :: cs) && !k'.isEmpty) = true
      · rw [if_pos hg] at h
        have h2 := subIn_append_right n v' _ hn hav h
        have hlen : (List.drop (k'.length - 1) cs).length ≤ f := by
          simp only [List.length_drop]
          simp only [List.length_cons] at hl
          omega
        have h3 := ih _ n hlen hn hav h2
        exact subIn_cons_of n c cs (subIn_drop n _ cs h3)
      · rw [if_neg hg] at h
        simp only [subIn, Bool.or_eq_true] at h ⊢
        rcases h with h | h
        · left
          cases n with
          | nil => exact absurd rfl hn
          | cons nh nt =>
            simp only [pfx, Bool.and_eq_true, beq_iff_eq] at h ⊢
            refine ⟨h.1, ?_⟩
            cases nt with
            | nil => rfl
            | cons m ms =>
              exact pfx_replaceAll k' v' hv cs (m :: ms) (by simp)
                (fun d hd => hav d (List.mem_cons_of_mem nh hd)) h.2
        · right
          have hlen : cs.length ≤ f := by simp only [List.length_cons] at hl; omega
          exact ih cs n hlen hn hav h

theorem replaceAll_no_occ (k v : List Char) :
    ∀ l, subIn k l = false → replaceAll k v l = l := by
  intro l
  induction l with
  | nil => intro _; simp [replaceAll]
  | cons c cs ih =>
    intro h
    simp only [subIn, Bool.or_eq_false_iff] at h
    rw [replaceAll, if_neg (by simp [h.1]), ih h.2]

theorem subIn_replaceAll_self (k v : List Char) (hk : k ≠ []) (hv : v ≠ [])
    (hd : ∀ c ∈ k, c ∉ v) :
    ∀ (fuel : Nat) (l : List Char), l.length ≤ fuel →
      subIn k (replaceAll k v l) = false := by
  intro fuel
  induction fuel with
  | zero =>
    intro l hl
    have : l = [] := List.length_eq_zero.mp (Nat.le_zero.mp hl)
    subst this
    cases k with
    | nil => exact absurd rfl hk
    | cons a as => simp [replaceAll, subIn]
  | succ f ih =>
    intro l hl
    cases l with
    | nil =>
      cases k with
      | nil => exact absurd rfl hk
      | cons a as => simp [replaceAll, subIn]
    | cons c cs =>
      rw [replaceAll]
      by_cases hg : (pfx k (c :: cs) && !k.isEmpty) = true
      · rw [if_pos hg]
        by_contra hcon
        simp only [Bool.not_eq_false] at hcon
        have h2 := subIn_append_right k v _ hk hd hcon
        have hlen : (List.drop (k.length - 1) cs).length ≤ f := by
          simp only [List.length_drop]
          simp only [List.length_cons] at hl
          omega
        have := ih _ hlen
        rw [this] at h2
        exact Bool.false_ne_true h2
      · rw [if_neg hg]
        have hlen : cs.length ≤ f := by simp only [List.length_cons] at hl; omega
        have hcs := ih cs hlen
        simp only [subIn, Bool.or_eq_false_iff]
        refine ⟨?_, hcs⟩
        by_contra hcon
        simp only [Bool.not_eq_false] at hcon
        cases k with
        | nil => exact absurd rfl hk
        | cons kh kt =>
          simp only [pfx, Bool.and_eq_true, beq_iff_eq] at hcon
          have hkfull : pfx (kh :: kt) (c :: cs) = true := by
            simp only [pfx, Bool.and_eq_true, beq_iff_eq]
            refine ⟨hcon.1, ?_⟩
            cases kt with
            | nil => rfl
            | cons m ms =>
              exact pfx_replaceAll (kh :: m :: ms) v hv cs (m :: ms) (by simp)
                (fun d hd' => hd d (List.mem_cons_of_mem kh hd')) hcon.2
          simp [hkfull] at hg

theorem mem_replaceAll (k v : List Char) (x : Char) :
    ∀ (fuel : Nat) (l : List Char), l.length ≤ fuel →
      x ∈ replaceAll k v l → x ∈ l ∨ x ∈ v := by
  intro fuel
  induction fuel with
  | zero =>
    intro l hl h
    have : l = [] := List.length_eq_zero.mp (Nat.le_zero.mp hl)
    subst this
    simp [replaceAll] at h
  | succ f ih =>
    intro l hl h
    cases l with
    | nil => simp [replaceAll] at h
    | cons c cs =>
      rw [replaceAll] at h
      by_cases hg : (pfx k (c :: cs) && !k.isEmpty) = true
      · rw [if_pos hg] at h
        rcases List.mem_append.mp h with h | h
        · exact Or.inr h
        · have hlen : (List.drop (k.length - 1) cs).length ≤ f := by
            simp only [List.length_drop]; simp only [List.length_cons] at hl; omega
          rcases ih _ hlen h with h | h
          · exact Or.inl (List.mem_cons_of_mem c (List.mem_of_mem_drop h))
          · exact Or.inr h
      · rw [if_neg hg] at h
        rcases List.mem_cons.mp h with h | h
        · exact Or.inl (h ▸ List.mem_cons_self c cs)
        · have hlen : cs.length ≤ f := by simp only [List.length_cons] at hl; omega
          rcases ih cs hlen h with h | h
          · exact Or.inl (List.mem_cons_of_mem c h)
          · exact Or.inr h

theorem replaceAll_ne_nil (k v : List Char) (l : List Char) (hv : v ≠ []) (hl : l ≠ []) :
    replaceAll k v l ≠ [] := by
  cases l with
  | nil => exact absurd rfl hl
  | cons c cs =>
    rw [replaceAll]
    by_cases hg : (pfx k (c :: cs) && !k.isEmpty) = true
    · rw [if_pos hg]
      simp [hv]
    · rw [if_neg hg]
      simp

/-! ## Text Normalizer (`normalize_text`, app.py 81-111) -/

/-- The `thai_eng_mappings` substitution table, in source order. -/
def thaiEngMappings : List (List Char × List Char) :=
  [("แกลลอน".data, "GAL".data),
   ("แกลอน".data, "GAL".data),
   ("ลิตร".data, "L".data),
   ("กิโลกรัม".data, "KG".data),
   ("กก.".data, "KG".data),
   ("มิลลิลิตร".data, "ML".data),
   ("มล.".data, "ML".data),
   ("เมตร".data, "M".data),
   ("ม.".data, "M".data),
   ("เซนติเมตร".data, "CM".data),
   ("ซม.".data, "CM".data),
   ("นิ้ว".data, "INCH".data),
   ("วัตต์".data, "W".data),
   ("กึ่งเงา".data, "SEMI-GLOSS".data),
   ("เนียน".data, "SHEEN".data),
   ("ด้าน".data, "MATTE".data)]

/-- One loop iteration of `normalize_text`:
`text.replace(thai.upper(), eng)` followed by `text.replace(thai, eng)`. -/
def applyMapping (t : List Char) (p : List Char × List Char) : List Char :=
  replaceAll p.1 p.2 (replaceAll (upperL p.1) p.2 t)

/-- `normalize_text` on character lists: empty guard, `upper().strip()`,
then the substitution table. -/
def normalizeL (s : List Char) : List Char :=
  if s.isEmpty then [] else thaiEngMappings.foldl applyMapping (trimL (upperL s))

/-- `normalize_text` (app.py 81-111). -/
def normalize_text (s : String) : String := String.mk (normalizeL s.data)

theorem mappings_keys_ne_nil : ∀ p ∈ thaiEngMappings, p.1 ≠ [] := by decide

theorem mappings_vals_ne_nil : ∀ p ∈ thaiEngMappings, p.2 ≠ [] := by decide

theorem mappings_disj : ∀ p ∈ thaiEngMappings, ∀ q ∈ thaiEngMappings, ∀ c ∈ p.1, c ∉ q.2 := by
  decide

theorem mappings_vals_upper : ∀ p ∈ thaiEngMappings, ∀ c ∈ p.2, pyUpperChar c = c := by decide

theorem mappings_vals_nospace : ∀ p ∈ thaiEngMappings, ∀ c ∈ p.2, isPySpace c = false := by
  decide

theorem mappings_keys_upper : ∀ p ∈ thaiEngMappings, upperL p.1 = p.1 := by decide

/-- Both ends of a string are non-whitespace (the invariant `strip`
establishes and the substitution table preserves). -/
def endsOK (l : List Char) : Prop :=
  (∀ c, l.head? = some c → isPySpace c = false) ∧
  (∀ c, l.getLast? = some c → isPySpace c = false)

theorem head?_dropWhile_nospace (l : List Char) (c : Char)
    (h : (l.dropWhile isPySpace).head? = some c) : isPySpace c = false := by
  induction l with
  | nil => simp at h
  | cons x xs ih =>
    rw [List.dropWhile_cons] at h
    by_cases hx : isPySpace x = true
    · rw [if_pos hx] at h
      exact ih h
    · rw [if_neg hx] at h
      simp only [List.head?_cons, Option.some.injEq] at h
      subst h
      simpa using hx

theorem getLast?_dropWhile_ne (p : Char → Bool) (l : List Char)
    (h : l.dropWhile p ≠ []) : (l.dropWhile p).getLast? = l.getLast? := by
  induction l with
  | nil => simp at h
  | cons x xs ih =>
    rw [List.dropWhile_cons] at h ⊢
    by_cases hx : p x = true
    · rw [if_pos hx] at h ⊢
      rw [ih h]
      have hxs : xs ≠ [] := by
        intro he
        rw [he] at h
        simp at h
      cases xs with
      | nil => exact absurd rfl hxs
      | cons y ys => rw [List.getLast?_cons_cons]
    · rw [if_neg hx]

theorem endsOK_trimL (l : List Char) : endsOK (trimL l) := by
  constructor
  · intro c hc
    rw [trimL, List.head?_reverse] at hc
    by_cases hinner : (l.dropWhile isPySpace).reverse.dropWhile isPySpace = []
    · rw [hinner] at hc
      simp at hc
    · rw [getLast?_dropWhile_ne _ _ hinner, List.getLast?_reverse] at hc
      exact head?_dropWhile_nospace l c hc
  · intro c hc
    rw [trimL, List.getLast?_reverse] at hc
    exact head?_dropWhile_nospace _ c hc

theorem dropWhile_eq_self_of_head (p : Char → Bool) (l : List Char)
    (h : ∀ c, l.head? = some c → p c = false) : l.dropWhile p = l := by
  cases l with
  | nil => rfl
  | cons x xs =>
    rw [List.dropWhile_cons, if_neg]
    simp [h x rfl]

theorem trimL_of_endsOK (l : List Char) (h : endsOK l) : trimL l = l := by
  have h1 : l.dropWhile isPySpace = l := dropWhile_eq_self_of_head _ _ h.1
  have h2 : l.reverse.dropWhile isPySpace = l.reverse := by
    apply dropWhile_eq_self_of_head
    intro c hc
    rw [List.head?_reverse] at hc
    exact h.2 c hc
  rw [trimL, h1, h2, List.reverse_reverse]

theorem head?_replaceAll (k v l : List Char) (hv : v ≠ []) :
    ∀ c, (replaceAll k v l).head? = some c → l.head? = some c ∨ c ∈ v := by
  intro c h
  cases l with
  | nil => simp [replaceAll] at h
  | cons x xs =>
    rw [replaceAll] at h
    by_cases hg : (pfx k (x :: xs) && !k.isEmpty) = true
    · rw [if_pos hg] at h
      cases v with
      | nil => exact absurd rfl hv
      | cons vh vt =>
        simp only [List.cons_append, List.head?_cons, Option.some.injEq] at h
        subst h
        exact Or.inr (List.mem_cons_self vh vt)
    · rw [if_neg hg] at h
      simp only [List.head?_cons, Option.some.injEq] at h
      subst h
      exact Or.inl rfl

theorem getLast?_drop_eq (n : Nat) :
    ∀ (l : List Char), l.drop n ≠ [] → (l.drop n).getLast? = l.getLast? := by
  induction n with
  | zero => intro l _; rfl
  | succ m ih =>
    intro l h
    cases l with
    | nil => simp at h
    | cons x xs =>
      rw [List.drop_succ_cons] at h ⊢
      rw [ih xs h]
      have hxs : xs ≠ [] := by
        intro he
        rw [he] at h
        simp at h
      cases xs with
      | nil => exact absurd rfl hxs
      | cons y ys => rw [List.getLast?_cons_cons]

theorem getLast?_replaceAll (k v : List Char) (hv : v ≠ []) :
    ∀ (fuel : Nat) (l : List Char), l.length ≤ fuel → ∀ c,
      (replaceAll k v l).getLast? = some c → l.getLast? = some c ∨ c ∈ v := by
  intro fuel
  induction fuel with
  | zero =>
    intro l hl c h
    have : l = [] := List.length_eq_zero.mp (Nat.le_zero.mp hl)
    subst this
    simp [replaceAll] at h
  | succ f ih =>
    intro l hl c h
    cases l with
    | nil => simp [replaceAll] at h
    | cons x xs =>
      rw [replaceAll] at h
      by_cases hg : (pfx k (x :: xs) && !k.isEmpty) = true
      · rw [if_pos hg] at h
        by_cases hRn : replaceAll k v (List.drop (k.length - 1) xs) = []
        · rw [hRn, List.append_nil] at h
          exact Or.inr (List.mem_of_mem_getLast? h)
        · rw [List.getLast?_append_of_ne_nil v hRn] at h
          have hdl : (List.drop (k.length - 1) xs).length ≤ f := by
            simp only [List.length_drop]
            simp only [List.length_cons] at hl
            omega
          have hdn : List.drop (k.length - 1) xs ≠ [] := by
            intro he
            rw [he] at hRn
            simp [replaceAll] at hRn
          rcases ih _ hdl c h with h' | h'
          · left
            have hxs : xs ≠ [] := by
              intro he
              rw [he] at hdn
              simp at hdn
            have e1 : (List.drop (k.length - 1) xs).getLast? = xs.getLast? :=
              getLast?_drop_eq (k.length - 1) xs hdn
            have e2 : (x :: xs).getLast? = xs.getLast? := by
              cases xs with
              | nil => exact absurd rfl hxs
              | cons y ys => rw [List.getLast?_cons_cons]
            rw [e2, ← e1]
            exact h'
          · exact Or.inr h'
      · rw [if_neg hg] at h
        cases xs with
        | nil =>
          simp only [replaceAll] at h
          simp only [List.getLast?_singleton, Option.some.injEq] at h
          subst h
          exact Or.inl rfl
        | cons y ys =>
          have hRn : replaceAll k v (y :: ys) ≠ [] := replaceAll_ne_nil k v _ hv (by simp)
          have hstep : (x :: replaceAll k v (y :: ys)).getLast? =
              (replaceAll k v (y :: ys)).getLast? := by
            cases hR : replaceAll k v (y :: ys) with
            | nil => exact absurd hR hRn
            | cons r rs => rw [List.getLast?_cons_cons]
          rw [hstep] at h
          have hlen : (y :: ys).length ≤ f := by
            simp only [List.length_cons] at hl ⊢
            omega
          rcases ih _ hlen c h with h' | h'
          · left
            rw [List.getLast?_cons_cons]
            exact h'
          · exact Or.inr h'

theorem endsOK_replaceAll (k v l : List Char) (hv : v ≠ [])
    (hvs : ∀ c ∈ v, isPySpace c = false) (h : endsOK l) : endsOK (replaceAll k v l) := by
  constructor
  · intro c hc
    rcases head?_replaceAll k v l hv c hc with h' | h'
    · exact h.1 c h'
    · exact hvs c h'
  · intro c hc
    rcases getLast?_replaceAll k v hv l.length l (le_refl _) c hc with h' | h'
    · exact h.2 c h'
    · exact hvs c h'

theorem endsOK_foldl (ms : List (List Char × List Char))
    (h2 : ∀ p ∈ ms, p.2 ≠ []) (h3 : ∀ p ∈ ms, ∀ c ∈ p.2, isPySpace c = false) :
    ∀ t, endsOK t → endsOK (ms.foldl applyMapping t) := by
  induction ms with
  | nil => intro t h; simpa using h
  | cons q qs ih =>
    intro t h
    simp only [List.foldl_cons]
    have hq2 := h2 q (List.mem_cons_self q qs)
    have hq3 := h3 q (List.mem_cons_self q qs)
    have happ : endsOK (applyMapping t q) :=
      endsOK_replaceAll _ _ _ hq2 hq3 (endsOK_replaceAll _ _ _ hq2 hq3 h)
    exact ih (fun p hp => h2 p (List.mem_cons_of_mem q hp))
      (fun p hp => h3 p (List.mem_cons_of_mem q hp)) _ happ

theorem upperFixed_foldl (ms : List (List Char × List Char))
    (hvu : ∀ p ∈ ms, ∀ c ∈ p.2, pyUpperChar c = c) :
    ∀ t, (∀ c ∈ t, pyUpperChar c = c) →
      ∀ c ∈ ms.foldl applyMapping t, pyUpperChar c = c := by
  induction ms with
  | nil => intro t h c hc; exact h c (by simpa using hc)
  | cons q qs ih =>
    intro t h c hc
    simp only [List.foldl_cons] at hc
    have hqu := hvu q (List.mem_cons_self q qs)
    have happ : ∀ c ∈ applyMapping t q, pyUpperChar c = c := by
      intro d hd
      rcases mem_replaceAll q.1 q.2 d _ _ (le_refl _) hd with h1 | h1
      · rcases mem_replaceAll (upperL q.1) q.2 d _ _ (le_refl _) h1 with h2 | h2
        · exact h d h2
        · exact hqu d h2
      · exact hqu d h1
    exact ih (fun p hp => hvu p (List.mem_cons_of_mem q hp)) _ happ c hc

theorem subIn_foldl_false (ms : List (List Char × List Char)) (n : List Char) (hn : n ≠ [])
    (hconds : ∀ p ∈ ms, p.1 ≠ [] ∧ p.2 ≠ [] ∧ ∀ c ∈ n, c ∉ p.2) :
    ∀ t, subIn n t = false → subIn n (ms.foldl applyMapping t) = false := by
  induction ms with
  | nil => intro t h; simpa using h
  | cons q qs ih =>
    intro t h
    simp only [List.foldl_cons]
    obtain ⟨hq1, hq2, hq3⟩ := hconds q (List.mem_cons_self q qs)
    have happ : subIn n (applyMapping t q) = false := by
      by_contra hcon
      simp only [Bool.not_eq_false] at hcon
      have h1 := subIn_replaceAll q.1 q.2 hq1 hq2 _ _ _ (le_refl _) hn hq3 hcon
      have hku : upperL q.1 ≠ [] := by
        intro he
        exact hq1 (List.map_eq_nil_iff.mp he)
      have h2 := subIn_replaceAll (upperL q.1) q.2 hku hq2 _ _ _ (le_refl _) hn hq3 h1
      rw [h] at h2
      exact Bool.false_ne_true h2
    exact ih (fun p hp => hconds p (List.mem_cons_of_mem q hp)) _ happ

theorem subIn_key_foldl (ms : List (List Char × List Char))
    (hwf : ∀ p ∈ ms, p.1 ≠ [] ∧ p.2 ≠ [])
    (hdisj : ∀ p ∈ ms, ∀ q ∈ ms, ∀ c ∈ p.1, c ∉ q.2) :
    ∀ p ∈ ms, ∀ t, subIn p.1 (ms.foldl applyMapping t) = false := by
  induction ms with
  | nil => intro p hp; simp at hp
  | cons q qs ih =>
    intro p hp t
    simp only [List.foldl_cons]
    rcases List.mem_cons.mp hp with rfl | hp'
    · obtain ⟨hp1, hp2⟩ := hwf p (List.mem_cons_self p qs)
      have hdp := hdisj p (List.mem_cons_self p qs) p (List.mem_cons_self p qs)
      have hkill : subIn p.1 (applyMapping t p) = false := by
        rw [applyMapping]
        exact subIn_replaceAll_self p.1 p.2 hp1 hp2 hdp _ _ (le_refl _)
      exact subIn_foldl_false qs p.1 hp1
        (fun r hr => ⟨(hwf r (List.mem_cons_of_mem p hr)).1,
          (hwf r (List.mem_cons_of_mem p hr)).2,
          hdisj p (List.mem_cons_self p qs) r (List.mem_cons_of_mem p hr)⟩) _ hkill
    · exact ih (fun r hr => hwf r (List.mem_cons_of_mem q hr))
        (fun r hr r' hr' => hdisj r (List.mem_cons_of_mem q hr) r' (List.mem_cons_of_mem q hr'))
        p hp' (applyMapping t q)

theorem foldl_applyMapping_fix (ms : List (List Char × List Char))
    (hku : ∀ p ∈ ms, upperL p.1 = p.1) :
    ∀ t, (∀ p ∈ ms, subIn p.1 t = false) → ms.foldl applyMapping t = t := by
  induction ms with
  | nil => intro t _; rfl
  | cons q qs ih =>
    intro t h
    simp only [List.foldl_cons]
    have hq : applyMapping t q = t := by
      rw [applyMapping, hku q (List.mem_cons_self q qs)]
      rw [replaceAll_no_occ _ _ _ (h q (List.mem_cons_self q qs)),
        replaceAll_no_occ _ _ _ (h q (List.mem_cons_self q qs))]
    rw [hq]
    exact ih (fun p hp => hku p (List.mem_cons_of_mem q hp)) t
      (fun p hp => h p (List.mem_cons_of_mem q hp))

theorem mem_foldl_applyMapping (ms : List (List Char × List Char)) :
    ∀ t c, c ∈ ms.foldl applyMapping t → c ∈ t ∨ ∃ p ∈ ms, c ∈ p.2 := by
  induction ms with
  | nil => intro t c h; exact Or.inl (by simpa using h)
  | cons q qs ih =>
    intro t c h
    simp only [List.foldl_cons] at h
    rcases ih _ c h with h1 | h1
    · rw [applyMapping] at h1
      rcases mem_replaceAll q.1 q.2 c _ _ (le_refl _) h1 with h2 | h2
      · rcases mem_replaceAll (upperL q.1) q.2 c _ _ (le_refl _) h2 with h3 | h3
        · exact Or.inl h3
        · exact Or.inr ⟨q, List.mem_cons_self q qs, h3⟩
      · exact Or.inr ⟨q, List.mem_cons_self q qs, h2⟩
    · obtain ⟨p, hp, hc⟩ := h1
      exact Or.inr ⟨p, List.mem_cons_of_mem q hp, hc⟩

theorem mem_dropWhile' (p : Char → Bool) :
    ∀ (l : List Char) (c : Char), c ∈ l.dropWhile p → c ∈ l := by
  intro l
  induction l with
  | nil => intro c h; simp at h
  | cons x xs ih =>
    intro c h
    rw [List.dropWhile_cons] at h
    by_cases hx : p x = true
    · rw [if_pos hx] at h
      exact List.mem_cons_of_mem x (ih c h)
    · rw [if_neg hx] at h
      exact h

theorem mem_trimL (l : List Char) (c : Char) (h : c ∈ trimL l) : c ∈ l := by
  rw [trimL, List.mem_reverse] at h
  have h1 := mem_dropWhile' _ _ _ h
  rw [List.mem_reverse] at h1
  exact mem_dropWhile' _ _ _ h1

theorem normalizeL_idem (s : List Char) : normalizeL (normalizeL s) = normalizeL s := by
  by_cases hs : s.isEmpty
  · have h0 : normalizeL s = [] := by rw [normalizeL, if_pos hs]
    rw [h0]
    simp [normalizeL]
  · have hN : normalizeL s = thaiEngMappings.foldl applyMapping (trimL (upperL s)) := by
      rw [normalizeL, if_neg hs]
    rw [hN]
    by_cases hne : (thaiEngMappings.foldl applyMapping (trimL (upperL s))).isEmpty
    · rw [normalizeL, if_pos hne]
      exact (List.isEmpty_iff.mp hne).symm
    · rw [normalizeL, if_neg hne]
      have hupper : upperL (thaiEngMappings.foldl applyMapping (trimL (upperL s))) =
          thaiEngMappings.foldl applyMapping (trimL (upperL s)) := by
        apply upperL_fix
        intro c hc
        rcases mem_foldl_applyMapping thaiEngMappings _ c hc with h1 | h1
        · have h2 := mem_trimL _ c h1
          rcases mem_upperL c _ h2 with ⟨d, _, rfl⟩
          exact pyUpperChar_idem d
        · obtain ⟨p, hp, hcp⟩ := h1
          exact mappings_vals_upper p hp c hcp
      have hends : endsOK (thaiEngMappings.foldl applyMapping (trimL (upperL s))) :=
        endsOK_foldl thaiEngMappings mappings_vals_ne_nil mappings_vals_nospace _
          (endsOK_trimL _)
      rw [hupper, trimL_of_endsOK _ hends]
      apply foldl_applyMapping_fix _ mappings_keys_upper
      intro p hp
      exact subIn_key_foldl thaiEngMappings
        (fun r hr => ⟨mappings_keys_ne_nil r hr, mappings_vals_ne_nil r hr⟩)
        mappings_disj p hp _

/-- C9: text normalization is idempotent: `normalize(normalize(x)) = normalize(x)`
for every input string, and it is a pure, total function mapping the empty
string to the empty string. -/
theorem C9_normalize_idempotent :
    (∀ s : String, normalize_text (normalize_text s) = normalize_text s) ∧
    normalize_text "" = "" := by
  constructor
  · intro s
    show String.mk (normalizeL (normalizeL s.data)) = String.mk (normalizeL s.data)
    rw [normalizeL_idem]
  · rfl

/-! ## A small regex engine with Python `re` search semantics

Leftmost match, ordered alternation, greedy quantifiers with backtracking,
numbered capture groups, word boundaries.  Evaluated only on concrete
strings; fuel is generous enough for every pattern/input pair used here. -/

/-- Word character for `\w` / `\b`.  CPython counts ASCII alphanumerics,
the underscore, and (for the data handled here) Thai letters and digits as
word characters; Thai combining marks are not letters. -/
def isWordPy (c : Char) : Bool :=
  c.isAlphanum || c == '_' ||
  (0x0E01 ≤ c.toNat && c.toNat ≤ 0x0E2E) ||
  c.toNat == 0x0E30 || c.toNat == 0x0E32 || c.toNat == 0x0E33 ||
  (0x0E40 ≤ c.toNat && c.toNat ≤ 0x0E46) ||
  (0x0E50 ≤ c.toNat && c.toNat ≤ 0x0E59)

/-- Regular expression syntax (enough for the patterns in the engine). -/
inductive Re where
  | eps : Re
  | cls : (Char → Bool) → Re
  | seq : Re → Re → Re
  | alt : Re → Re → Re
  | star : Re → Re
  | opt : Re → Re
  | group : Nat → Re → Re
  | wb : Re

/-- Matcher state: previous character (for `\b`), remaining input,
captures recorded so far. -/
structure MSt where
  prev : Option Char
  rest : List Char
  caps : List (Nat × List Char)

/-- Backtracking matcher in continuation-passing style.  Alternation tries
the left alternative first; `star` and `opt` are greedy; a failing
continuation backtracks into earlier choices. -/
def reMatch : Nat → Re → MSt → (MSt → Option MSt) → Option MSt
  | 0, _, _, _ => none
  | fuel+1, r, s, k =>
    match r with
    | .eps => k s
    | .cls p =>
      match s.rest with
      | [] => none
      | c :: cs => if p c then k ⟨some c, cs, s.caps⟩ else none
    | .seq a b => reMatch fuel a s (fun s2 => reMatch fuel b s2 k)
    | .alt a b =>
      match reMatch fuel a s k with
      | some res => some res
      | none => reMatch fuel b s k
    | .opt a =>
      match reMatch fuel a s k with
      | some res => some res
      | none => k s
    | .star a =>
      match reMatch fuel a s (fun s2 => reMatch fuel (.star a) s2 k) with
      | some res => some res
      | none => k s
    | .group n a =>
      reMatch fuel a s (fun s2 =>
        k { s2 with caps := (n, s.rest.take (s.rest.length - s2.rest.length)) :: s2.caps })
    | .wb =>
      let lw := match s.prev with | some c => isWordPy c | none => false
      let rw := match s.rest with | c :: _ => isWordPy c | [] => false
      if lw != rw then k s else none

/-- `re.search` scanning start positions left to right. -/
def reSearchFrom (r : Re) : Nat → Option Char → List Char → Option MSt
  | 0, _, _ => none
  | fuel+1, prev, s =>
    match reMatch ((s.length + 1) * 300 + 600) r ⟨prev, s, []⟩ some with
    | some res => some res
    | none =>
      match s with
      | [] => none
      | c :: cs => reSearchFrom r fuel (some c) cs

/-- `re.search(pattern, s)`. -/
def reSearch (r : Re) (s : List Char) : Option MSt :=
  reSearchFrom r (s.length + 1) none s

/-- `match.group(n)` (None when the group did not participate). -/
def MSt.grp (m : MSt) (n : Nat) : Option (List Char) :=
  (m.caps.find? (fun p => p.1 == n)).map (·.2)

/-- Did the pattern match anywhere (`if re.search(...)`)? -/
def reHas (r : Re) (s : List Char) : Bool := (reSearch r s).isSome

/-- `re.search(...)` then `.group(n)`. -/
def reGrp (r : Re) (s : List Char) (n : Nat) : Option (List Char) :=
  match reSearch r s with
  | none => none
  | some m => m.grp n

/-- `re.findall`: non-overlapping matches, left to right. -/
def reFindAllFrom (r : Re) : Nat → Option Char → List Char → List MSt
  | 0, _, _ => []
  | fuel+1, prev, s =>
    match reSearchFrom r (s.length + 1) prev s with
    | none => []
    | some m =>
      if m.rest.length < s.length then
        m :: reFindAllFrom r fuel m.prev m.rest
      else
        [m]

def reFindAll (r : Re) (s : List Char) : List MSt :=
  reFindAllFrom r (s.length + 1) none s

/-- Literal string pattern. -/
def Re.strLit (s : String) : Re :=
  s.data.foldr (fun c acc => Re.seq (Re.cls (fun d => d == c)) acc) Re.eps

/-- Case-insensitive literal (`re.IGNORECASE`). -/
def Re.strLitCI (s : String) : Re :=
  s.data.foldr (fun c acc => Re.seq (Re.cls (fun d => pyLowerChar d == pyLowerChar c)) acc)
    Re.eps

/-- Ordered alternation of a list of patterns. -/
def Re.altList : List Re → Re
  | [] => Re.cls (fun _ => false)
  | [r] => r
  | r :: rs => Re.alt r (Re.altList rs)

/-- Exactly `n` copies. -/
def Re.reps : Nat → Re → Re
  | 0, _ => Re.eps
  | n+1, r => Re.seq r (Re.reps n r)

/-- At most `n` copies, greedy. -/
def Re.upTo : Nat → Re → Re
  | 0, _ => Re.eps
  | n+1, r => Re.opt (Re.seq r (Re.upTo n r))

/-- `r{lo,hi}`, greedy. -/
def Re.between (lo hi : Nat) (r : Re) : Re :=
  Re.seq (Re.reps lo r) (Re.upTo (hi - lo) r)

/-- `r+`. -/
def Re.plus (r : Re) : Re := Re.seq r (Re.star r)

/-- `\d` (ASCII digits; see the header note). -/
def dChr : Re := Re.cls (fun c => c.isDigit)

/-- `\s`. -/
def sChr : Re := Re.cls (fun c => isPySpace c)

/-- `\d+`. -/
def digits1 : Re := Re.plus dChr

/-- `\s*`. -/
def spaces0 : Re := Re.star sChr

/-- `(\d+(?:\.\d+)?)` without the group. -/
def reNum : Re := Re.seq digits1 (Re.opt (Re.seq (Re.cls (fun c => c == '.')) digits1))

/-- `[xX×]`. -/
def xCls : Re := Re.cls (fun c => c == 'x' || c == 'X' || c == '×')

theorem re_sanity_num :
    reGrp (Re.group 1 reNum) "ab 12.5cm".data 1 = some "12.5".data := by decide

theorem re_sanity_wb :
    reHas (Re.seq (Re.strLitCI "m") Re.wb) "10ms".data = false ∧
    reHas (Re.seq (Re.strLitCI "m") Re.wb) "10m.".data = true := by decide

/-! ## Brand & Category Resolver (app.py 121-254) -/

def known_brands : List String :=
  ["LUZINO",
   "GIANT KINGKONG",
   "FONTE",
   "TOA",
   "BEGER",
   "JOTUN",
   "NIPPON",
   "DULUX",
   "CAPTAIN",
   "JBP",
   "SHARK",
   "BARCO",
   "DELTA",
   "CHAMPION",
   "DAVIES",
   "SCG",
   "CPAC",
   "TPI",
   "ELEPHANT",
   "จระเข้",
   "SOLEX",
   "YALE",
   "HAFELE",
   "COLT",
   "ISON",
   "MAKITA",
   "BOSCH",
   "DEWALT",
   "STANLEY",
   "BLACK+DECKER",
   "PHILIPS",
   "LAMPTAN",
   "RACER",
   "EVE",
   "PANASONIC",
   "MITSUBISHI",
   "HITACHI",
   "TOSHIBA",
   "SAMSUNG",
   "LG",
   "ECO DOOR",
   "BATHIC",
   "MASTERWOOD",
   "UPVC",
   "3M",
   "SCOTCH",
   "BESBOND",
   "DUNLOP",
   "BOSNY",
   "API",
   "BF",
   "JCJ",
   "KING",
   "LE",
   "CLOSE",
   "MAX LIGHT",
   "KECH",
   "MATALL",
   "STACKO",
   "FURDINI",
   "SPRING",
   "WAVE",
   "ANYHOME",
   "HACHI",
   "SOMIC",
   "NASH",
   "MODERN",
   "FOTINI",
   "SAKURA",
   "AT.INDY",
   "NL HOME",
   "SUPER"]

def urlBrandsBoon : List (String × String) :=
  [("max", "MAX LIGHT"), ("lamptan", "LAMPTAN"), ("anyhome", "ANYHOME"), ("at", "AT.INDY"), ("hachi", "HACHI"), ("somic", "SOMIC"), ("bf", "BF"), ("le", "LE"), ("super", "SUPER"), ("king", "KING"), ("nl", "NL HOME"), ("sakura", "SAKURA"), ("toa", "TOA"), ("jupiter", "JUPITER"), ("jorakay", "JORAKAY"), ("mex", "MEX"), ("yale", "YALE"), ("hitachi", "HITACHI"), ("mitsubishi", "MITSUBISHI"), ("panasonic", "PANASONIC"), ("hafele", "HAFELE"), ("scg", "SCG")]

def urlBrandsHomepro : List (String × String) :=
  [("kech", "KECH"), ("matall", "MATALL"), ("stacko", "STACKO"), ("furdini", "FURDINI"), ("spring", "SPRING"), ("wave", "WAVE")]

def categoriesTable : List (String × String) :=
  [("สีน้ำ", "PAINT"),
   ("สีทา", "PAINT"),
   ("PAINT", "PAINT"),
   ("สีรองพื้น", "PRIMER"),
   ("PRIMER", "PRIMER"),
   ("ทินเนอร์", "THINNER"),
   ("THINNER", "THINNER"),
   ("ประตู", "DOOR"),
   ("DOOR", "DOOR"),
   ("หน้าต่าง", "WINDOW"),
   ("WINDOW", "WINDOW"),
   ("มือจับ", "HANDLE"),
   ("ก้านโยก", "HANDLE"),
   ("HANDLE", "HANDLE"),
   ("บานพับ", "HINGE"),
   ("HINGE", "HINGE"),
   ("กุญแจ", "LOCK"),
   ("LOCK", "LOCK"),
   ("สว่าน", "DRILL"),
   ("DRILL", "DRILL"),
   ("หลอดไฟ", "LIGHT_BULB"),
   ("LED", "LED"),
   ("โคมไฟ", "LAMP"),
   ("LAMP", "LAMP"),
   ("ท่อ", "PIPE"),
   ("PIPE", "PIPE"),
   ("ปูน", "CEMENT"),
   ("CEMENT", "CEMENT"),
   ("กาว", "ADHESIVE"),
   ("GLUE", "ADHESIVE"),
   ("ซิลิโคน", "SILICONE"),
   ("SILICONE", "SILICONE"),
   ("น้ำยา", "CHEMICAL"),
   ("ผ้า", "FABRIC"),
   ("ถุงมือ", "GLOVES"),
   ("รองเท้า", "SHOES"),
   ("บันได", "LADDER"),
   ("LADDER", "LADDER"),
   ("พัดลม", "FAN"),
   ("FAN", "FAN"),
   ("ปั๊ม", "PUMP"),
   ("PUMP", "PUMP")]

/-- Table lookup: Python `dict.get(key)` with key a lowered slug. -/
def lookupStr (tbl : List (String × String)) (key : List Char) : Option String :=
  (tbl.find? (fun p => p.1.data == key)).map (·.2)

/-- `[a-zA-Z0-9-]`. -/
def slugChr : Re := Re.cls (fun c => c.isAlphanum || c == '-')

/-- `boonthavorn\.com/([a-zA-Z0-9-]+)`. -/
def reBoon : Re := Re.seq (Re.strLit "boonthavorn.com/") (Re.group 1 (Re.plus slugChr))

/-- `homepro\.co\.th/[^/]+/([a-zA-Z0-9-]+)`. -/
def reHomeproUrl : Re :=
  Re.seq (Re.strLit "homepro.co.th/")
    (Re.seq (Re.plus (Re.cls (fun c => c ≠ '/')))
      (Re.seq (Re.strLit "/") (Re.group 1 (Re.plus slugChr))))

/-- `extract_brand_from_url` (app.py 156-199). -/
def extract_brand_from_url (url : String) : String :=
  if url = "" then ""
  else
    let u := lowerL url.data
    let boonRes : Option String :=
      if subIn ("boonthavorn.com/".data) u then
        match reGrp reBoon u 1 with
        | some slugFull =>
          some ((lookupStr urlBrandsBoon (slugFull.takeWhile (fun c => c ≠ '-'))).getD "")
        | none => none
      else none
    match boonRes with
    | some b => b
    | none =>
      let homeRes : Option String :=
        if subIn ("homepro.co.th/".data) u then
          match reGrp reHomeproUrl u 1 with
          | some slugFull =>
            some ((lookupStr urlBrandsHomepro
              (slugFull.takeWhile (fun c => c ≠ '-'))).getD "HOMEPRO")
          | none => some "HOMEPRO"
        else none
      match homeRes with
      | some b => b
      | none =>
        if subIn ("dohome.co.th/".data) u then
          if subIn "nash".data u then "NASH"
          else if subIn "eve".data u then "EVE"
          else if subIn "lamptan".data u then "LAMPTAN"
          else if subIn "modern".data u then "MODERN"
          else if subIn "fotini".data u then "FOTINI"
          else "DOHOME"
        else if subIn ("globalhouse.co.th/".data) u then "GLOBALHOUSE"
        else ""

/-- The known-brand scan of `extract_brand`: the list sorted by length,
longest first (Python `sorted(key=len, reverse=True)`, stable), first brand
contained in the upper-cased name. -/
def brandScan (product_name : String) : String :=
  let nameUpper := upperL product_name.data
  match (insSort (fun a b => b.length ≤ a.length) known_brands).find?
      (fun b => subIn b.data nameUpper) with
  | some b => b
  | none => ""

/-- `extract_brand` (app.py 121-154): explicit field, else URL inference,
else known-brand scan. -/
def extract_brand (product_name explicit_brand product_url : String) : String :=
  if explicit_brand ≠ "" then String.mk (trimL (upperL explicit_brand.data))
  else if product_url ≠ "" then
    if extract_brand_from_url product_url ≠ "" then extract_brand_from_url product_url
    else brandScan product_name
  else brandScan product_name

/-- `extract_category` (app.py 201-254): first keyword hit, default OTHER. -/
def extract_category (product_name : String) : String :=
  let nameUpper := upperL product_name.data
  match categoriesTable.find? (fun p => subIn p.1.data nameUpper) with
  | some p => p.2
  | none => "OTHER"

theorem brand_sanity_shark : brandScan "TOA SHARK 1 GAL" = "SHARK" := by decide

theorem brand_sanity_url :
    extract_brand_from_url "https://www.boonthavorn.com/lamptan-led-bulb" = "LAMPTAN" := by
  decide

/-- C2 counterexample: with no explicit brand, a URL whose grammar yields
LAMPTAN wins over a name in which the keyword scan finds TOA — the code
applies the URL grammar before the known-brand scan, not after it. -/
theorem C2_counterexample :
    extract_brand "TOA 123" "" "https://www.boonthavorn.com/lamptan-led-bulb" = "LAMPTAN" ∧
    brandScan "TOA 123" = "TOA" ∧
    ("LAMPTAN" : String) ≠ "TOA" := by
  refine ⟨by decide, by decide, by decide⟩

/-- C2 amended: brand resolution precedence is explicit field first, then
the per-retailer URL grammar (when a URL is present and yields a brand),
and the longest-match-first known-brand scan only after both. -/
theorem C2_brand_precedence (name explicit url : String) :
    (explicit ≠ "" → extract_brand name explicit url = String.mk (trimL (upperL explicit.data))) ∧
    (explicit = "" → extract_brand_from_url url ≠ "" →
      extract_brand name explicit url = extract_brand_from_url url) ∧
    (explicit = "" → extract_brand_from_url url = "" →
      extract_brand name explicit url = brandScan name) := by
  refine ⟨?_, ?_, ?_⟩
  · intro h
    rw [extract_brand, if_pos h]
  · intro he hb
    subst he
    have hu : url ≠ "" := by
      intro h0
      subst h0
      exact hb rfl
    rw [extract_brand, if_neg (by simp), if_pos hu, if_pos hb]
  · intro he hb
    subst he
    by_cases hu : url = ""
    · subst hu
      rw [extract_brand, if_neg (by simp), if_neg (by simp)]
    · rw [extract_brand, if_neg (by simp), if_pos hu, if_neg (by simp [hb])]

/-- Witness for C2: each precedence branch at a concrete input. -/
theorem C2_brand_precedence_witness :
    extract_brand "x" "toa " "" = "TOA" ∧
    extract_brand "TOA 123" "" "https://www.dohome.co.th/nash-fan" = "NASH" ∧
    extract_brand "TOA 123" "" "" = "TOA" := by
  refine ⟨?_, ?_, ?_⟩
  · have h := (C2_brand_precedence "x" "toa " "").1 (by decide)
    rw [h]
    decide
  · have h := (C2_brand_precedence "TOA 123" "" "https://www.dohome.co.th/nash-fan").2.1
      rfl (by decide)
    rw [h]
    decide
  · have h := (C2_brand_precedence "TOA 123" "" "").2.2 rfl (by decide)
    rw [h]
    decide

/-! ## Conflict Detector (`has_product_conflict`, app.py 257-1901) -/

def PRODUCT_LINE_CONFLICTS : List (String × String) :=
  [("ตัดกิ่ง", "อเนกประสงค์"),
   ("ตัดกิ่ง", "multipurpose"),
   ("pruning", "multipurpose"),
   ("pruning shear", "scissors"),
   ("แชล็ค", "น้ำมัน"),
   ("shellac", "oil paint"),
   ("ราวแขวน", "ชั้นวางของโล่ง"),
   ("hanging rack", "open shelf"),
   ("ราวแขวน", "ชั้นโล่ง"),
   ("2 ทาง", "มือจับ"),
   ("ขึ้นลง 2 ทาง", "ทรง A"),
   ("ดูดและเป่า", "เป่าลม"),
   ("vacuum blower", "blower"),
   ("3 ชั้น", "4 ชั้น"),
   ("2 ชั้น", "4 ชั้น"),
   ("มือจับดึง", "MORTISE"),
   ("มือจับดึง", "ล็อค"),
   ("pull handle", "mortise"),
   ("pull handle", "lock handle"),
   ("เก้าอี้พับ", "เก้าอี้เหล็ก"),
   ("เก้าอี้ชายหาด", "เก้าอี้เหล็ก"),
   ("folding chair", "steel chair"),
   ("beach chair", "steel chair"),
   ("แขนรับชั้น", "สีสเปรย์"),
   ("แขนรับชั้น", "สเปรย์"),
   ("ฉากรับชั้น", "สีสเปรย์"),
   ("shelf bracket", "spray"),
   ("ไม่มีเบรก", "มีเบรก"),
   ("ไม่มีเบรค", "มีเบรค"),
   ("no brake", "with brake"),
   ("อะไหล่ลูกกลิ้ง", "ลูกกลิ้งทาสี"),
   ("พับได้", "ทรง A"),
   ("อเนกประสงค์พับ", "ทรง A"),
   ("foldable ladder", "a-frame"),
   ("ขึ้นลง 2 ทาง", "ทางเดียว"),
   ("2 ทาง", "ทางเดียว"),
   ("โคมไฟเพดาน", "หลอด LED"),
   ("โคมดาวน์ไลท์", "หลอด LED"),
   ("ceiling lamp", "LED bulb"),
   ("downlight fixture", "LED module"),
   ("ถังขยะสี่เหลี่ยม", "ถังขยะกลม"),
   ("square trash", "round trash"),
   ("โคมไฟกิ่ง", "ไฟผนัง"),
   ("โคมไฟกิ่ง", "ไฟสนามเตี้ย"),
   ("โคมไฟหัวเสา", "ไฟผนัง"),
   ("โคมไฟหัวเสา", "ไฟสนามเตี้ย"),
   ("โคมไฟแขวน", "ไฟผนัง"),
   ("โคมไฟแขวน", "ไฟสนามเตี้ย"),
   ("branch lamp", "wall lamp"),
   ("pole lamp", "wall lamp"),
   ("hanging lamp", "wall lamp"),
   ("pendant lamp", "wall lamp"),
   ("ห้องทั่วไป", "ห้องน้ำ"),
   ("bathroom knob", "passage knob"),
   ("1/2 นิ้ว", "5/8 นิ้ว"),
   ("1/2 นิ้ว", "3/4 นิ้ว"),
   ("5/8 นิ้ว", "3/4 นิ้ว"),
   ("เก้าอี้จัดเลี้ยง", "เก้าอี้สเตนเลส"),
   ("เก้าอี้จัดเลี้ยง", "เก้าอี้กลม"),
   ("เก้าอี้จัดเลี้ยง", "เก้าอี้บาร์"),
   ("เก้าอี้พักผ่อน", "เก้าอี้สเตนเลส"),
   ("เก้าอี้พับ", "เก้าอี้สเตนเลส"),
   ("banquet chair", "stool"),
   ("banquet chair", "bar chair"),
   ("กระทะตื้น", "กระทะลึก"),
   ("กระทะทอด", "หม้อต้ม"),
   ("shallow pan", "deep pan"),
   ("ดาวน์ไลท์ LED", "ดาวน์ไลท์หลอด"),
   ("โคมดาวน์ไลท์แบบปิด", "ดาวน์ไลท์ LED"),
   ("หน้าเหลี่ยม", "หน้ากลม"),
   ("ทรงเหลี่ยม", "ทรงกลม"),
   ("แพ็ก 6", "แพ็ก 10"),
   ("แพ็ก 3", "แพ็ก 6"),
   ("แพ็ก 5", "แพ็ก 10"),
   ("แพ็ก 3", "แพ็ก 10"),
   ("สูง", "กว้าง"),
   ("tall", "wide"),
   ("เก้าอี้บาร์เหล็ก", "เก้าอี้พับ"),
   ("bar stool", "folding chair"),
   ("66L", "17L"),
   ("66 ลิตร", "17 ลิตร"),
   ("17GL", "4.5GL"),
   ("17 แกลลอน", "4.5 แกลลอน"),
   ("66 L", "17 L"),
   ("rattan", "stacko"),
   ("หวาย", "stacko"),
   ("ขนสัตว์", "ขนหมู"),
   ("natural bristle", "pig bristle"),
   ("หัวเหล็ก", "หัวพลาสติก"),
   ("iron hook", "plastic hook"),
   ("มีล้อ", "แบบเหยียบ"),
   ("ถังขยะมีล้อ", "ถังขยะแบบเหยียบ"),
   ("wheeled trash", "step trash"),
   ("E27x2", "E27x1"),
   ("E27x3", "E27x1"),
   ("E27x3", "E27x2"),
   ("กล่องอาหาร", "กล่องพลาสติก"),
   ("กล่องอาหาร", "กล่องเก็บของ"),
   ("food container", "storage box"),
   ("ดาวน์ไลท์ติดลอย", "ดาวน์ไลท์ฝัง"),
   ("surface mount", "recessed"),
   ("บานซิงค์คู่", "บานซิงค์เดี่ยว"),
   ("ซิงค์คู่", "เดี่ยว"),
   ("คู่ใต้เตา", "เดี่ยว"),
   ("double sink", "single sink"),
   ("มีกราวด์", "ไม่มีกราวด์"),
   ("grounded outlet", "ungrounded outlet"),
   ("5 ชั้น", "3 ชั้น"),
   ("5 ชั้น", "4 ชั้น"),
   ("4 ชั้น", "3 ชั้น"),
   ("5 tier", "3 tier"),
   ("5 tier", "4 tier"),
   ("4 tier", "3 tier"),
   ("6 เส้น", "9 เส้น"),
   ("6 เส้น", "12 เส้น"),
   ("9 เส้น", "12 เส้น"),
   ("6 lines", "9 lines"),
   ("6 lines", "12 lines"),
   ("9 lines", "12 lines"),
   ("3 ขั้น", "4 ขั้น"),
   ("3 ขั้น", "5 ขั้น"),
   ("4 ขั้น", "5 ขั้น"),
   ("4 ขั้น", "6 ขั้น"),
   ("5 ขั้น", "6 ขั้น"),
   ("3 steps", "4 steps"),
   ("3 steps", "5 steps"),
   ("4 steps", "5 steps"),
   ("กลม", "สี่เหลี่ยม"),
   ("ทรงกลม", "ทรงสี่เหลี่ยม"),
   ("round", "square"),
   ("circular", "rectangular"),
   ("3 นิ้ว", "4 นิ้ว"),
   ("4 นิ้ว", "5 นิ้ว"),
   ("3 inch", "4 inch"),
   ("4 inch", "5 inch"),
   ("3 ลิ้นชัก", "4 ลิ้นชัก"),
   ("3 ลิ้นชัก", "5 ลิ้นชัก"),
   ("4 ลิ้นชัก", "5 ลิ้นชัก"),
   ("3 drawer", "4 drawer"),
   ("3 drawer", "5 drawer"),
   ("2x4", "4x4"),
   ("4x4", "6x6"),
   ("ห้องน้ำ", "ห้องนอน"),
   ("bathroom lock", "bedroom lock"),
   ("privacy lock", "passage lock"),
   ("แชล็ค", "วานิช"),
   ("แชล็ค", "น้ำมัน"),
   ("shellac", "varnish"),
   ("shellac", "oil"),
   ("1 ที่นั่ง", "2 ที่นั่ง"),
   ("1 ที่นั่ง", "3 ที่นั่ง"),
   ("2 ที่นั่ง", "3 ที่นั่ง"),
   ("1 seat", "2 seat"),
   ("2 seat", "3 seat"),
   ("ผ้าเช็ด", "ทิชชู่"),
   ("ผ้าเช็ด", "กระดาษ"),
   ("cloth", "tissue"),
   ("cloth", "paper"),
   ("x 250", "x 200"),
   ("x 300", "x 250"),
   ("x 300", "x 200"),
   ("E27x1", "วัตต์ DAYLIGHT"),
   ("E27x2", "วัตต์ DAYLIGHT"),
   ("E27x1", "วัตต์ WARMWHITE"),
   ("E27x2", "วัตต์ WARMWHITE"),
   ("E27x1", "W DAYLIGHT"),
   ("E27x2", "W DAYLIGHT"),
   ("42 ลิตร", "30 ลิตร"),
   ("60 ลิตร", "42 ลิตร"),
   ("60 ลิตร", "30 ลิตร"),
   ("สีดำ", "น้ำตาล"),
   ("ดำ", "น้ำตาล"),
   ("black", "brown"),
   ("ขนสัตว์", "ขนสังเคราะห์"),
   ("natural bristle", "synthetic"),
   ("LED 2x3W", "E27x1"),
   ("LED 6W", "E27x1"),
   ("LED 9W", "E27x1"),
   ("LED 12W", "E27x1"),
   ("LED 15W", "E27x1"),
   ("E27x2", "LED GL"),
   ("E27x2", "LED 15W"),
   ("E27x2", "LED 9W"),
   ("ลูกกลิ้งเคมี", "อะไหล่ขน"),
   ("ทาสีเคมี", "อะไหล่ขน"),
   ("chemical roller", "paint roller refill"),
   ("ไฟเบอร์กลาส", "โฟม"),
   ("fiberglass", "foam"),
   ("ไมโครไฟเบอร์กลาส", "พร้อมอะไหล่"),
   ("microfiber glass", "with refill")]

/-- Is any keyword of the list contained in the string? (`any(kw in s ...)`). -/
def hasKw (kws : List String) (l : List Char) : Bool := kws.any (fun k => subIn k.data l)

/-- `t in s` for a literal. -/
def sIn (t : String) (l : List Char) : Bool := subIn t.data l

/-- Last keyword of the list found in the string (the Python loops assign
without break, so the last hit wins). -/
def lastHit (colors : List String) (l : List Char) : Option String :=
  (colors.filter (fun c => subIn c.data l)).getLast?

/-- Last (thai, eng) pair with either spelling present; yields the Thai form
(the loops assign the Thai name). -/
def lastHit2 (pairs : List (String × String)) (l : List Char) : Option String :=
  ((pairs.filter (fun p => subIn p.1.data l || subIn p.2.data l)).getLast?).map (·.1)

/-- The literal term-pair stage of `has_product_conflict` (app.py 538-544):
for each (term1, term2), conflict when term1 occurs in one lowered name and
term2 in the other, in either direction. -/
def literalPairConflict (source_lower target_lower : List Char) : Bool :=
  PRODUCT_LINE_CONFLICTS.any (fun p =>
    (subIn (lowerL p.1.data) source_lower && subIn (lowerL p.2.data) target_lower) ||
    (subIn (lowerL p.2.data) source_lower && subIn (lowerL p.1.data) target_lower))

/-- `(\d+(?:\.\d+)?)\s*(?:L|ลิตร)` with IGNORECASE. -/
def reLiterVol : Re :=
  Re.seq (Re.group 1 reNum)
    (Re.seq spaces0 (Re.altList [Re.strLitCI "L", Re.strLit "ลิตร"]))

/-- `(\d+(?:\.\d+)?)\s*(?:GL|GAL|แกลลอน)` with IGNORECASE. -/
def reGallonVol : Re :=
  Re.seq (Re.group 1 reNum)
    (Re.seq spaces0 (Re.altList [Re.strLitCI "GL", Re.strLitCI "GAL", Re.strLit "แกลลอน"]))

/-- `extract_volume_liters` (app.py 507-525). -/
def extract_volume_liters (name : String) : Option PQ :=
  if name = "" then none
  else
    let nu := upperL name.data
    match reGrp reLiterVol nu 1 with
    | some v => some (parsePQ v)
    | none =>
      match reGrp reGallonVol nu 1 with
      | some v => some (PQ.mul (parsePQ v) ⟨3785, 1000⟩)
      | none => none

/-- `(?:นิ้ว|inch|"|″)` with IGNORECASE. -/
def inchUnit : Re :=
  Re.altList [Re.strLit "นิ้ว", Re.strLitCI "inch", Re.strLit "\"", Re.strLit "″"]

/-- `(\d+)\s*(?:นิ้ว|inch|"|″)`. -/
def reIntInch : Re := Re.seq (Re.group 1 digits1) (Re.seq spaces0 inchUnit)

/-- `(\d+(?:\.\d+)?)\s*(?:นิ้ว|inch|"|″)`. -/
def reNumInch : Re := Re.seq (Re.group 1 reNum) (Re.seq spaces0 inchUnit)

/-- Dynamic volume conflict: liter/gallon amounts differ by more than 50%. -/
def cbVolume (src tgt : String) : Bool :=
  match extract_volume_liters src, extract_volume_liters tgt with
  | some sv, some tv =>
    if !(PQ.eqv sv (pqNat 0)) && !(PQ.eqv tv (pqNat 0)) then
      let mx := PQ.maxv sv tv
      let mn := PQ.minv sv tv
      PQ.lt (pqNat 0) mx && PQ.lt (PQ.div mn mx) ⟨1, 2⟩
    else false
  | _, _ => false

/-- `(E27|E14|GU10|MR16)` with IGNORECASE. -/
def reSocketType : Re :=
  Re.group 1 (Re.altList [Re.strLitCI "E27", Re.strLitCI "E14", Re.strLitCI "GU10",
    Re.strLitCI "MR16"])

/-- Socket type mismatch (upper-compared). -/
def cbSocketType (src tgt : List Char) : Bool :=
  match reGrp reSocketType src 1, reGrp reSocketType tgt 1 with
  | some s, some t => upperL s != upperL t
  | _, _ => false

/-- Bicycle wheel-size and colour conflicts. -/
def cbBicycle (src tgt srcL tgtL : List Char) : Bool :=
  let kws := ["จักรยาน", "bicycle", "bike"]
  if hasKw kws srcL && hasKw kws tgtL then
    (match reGrp reIntInch src 1, reGrp reIntInch tgt 1 with
     | some s, some t => parseNat s != parseNat t
     | _, _ => false) ||
    (let cols := ["ดำ", "ชมพู", "แดง", "น้ำเงิน", "เขียว", "ขาว", "เหลือง", "ส้ม"]
     match lastHit cols srcL, lastHit cols tgtL with
     | some a, some b => a != b
     | _, _ => false)
  else false

/-- `(\d+)\s*(?:%|เปอร์เซ็นต์|percent)` with IGNORECASE. -/
def rePct : Re :=
  Re.seq (Re.group 1 digits1)
    (Re.seq spaces0 (Re.altList [Re.strLit "%", Re.strLit "เปอร์เซ็นต์", Re.strLitCI "percent"]))

/-- Shade-net colour and percentage conflicts. -/
def cbShadeNet (src tgt srcL tgtL : List Char) : Bool :=
  let kws := ["ตาข่ายกรองแสง", "สแลน", "shade net", "sunshade"]
  if hasKw kws srcL && hasKw kws tgtL then
    let sg := sIn "เขียว" srcL || sIn "green" srcL
    let sb := sIn "ดำ" srcL || sIn "black" srcL
    let tg := sIn "เขียว" tgtL || sIn "green" tgtL
    let tb := sIn "ดำ" tgtL || sIn "black" tgtL
    ((sg && tb) || (sb && tg)) ||
    (match reGrp rePct src 1, reGrp rePct tgt 1 with
     | some a, some b => a != b
     | _, _ => false)
  else false

/-- `(\d+)\s*[xX×]\s*(\d+)`. -/
def reDim2 : Re :=
  Re.seq (Re.group 1 digits1)
    (Re.seq spaces0 (Re.seq xCls (Re.seq spaces0 (Re.group 2 digits1))))

/-- Window blind width within 30%. -/
def cbBlind (src tgt srcL tgtL : List Char) : Bool :=
  let kws := ["มู่ลี่", "ม่านหน้าต่าง", "blind", "curtain"]
  if hasKw kws srcL && hasKw kws tgtL then
    match reGrp reDim2 src 1, reGrp reDim2 tgt 1 with
    | some a, some b =>
      let sw := pqNat (parseNat a)
      let tw := pqNat (parseNat b)
      PQ.lt (pqNat 0) (PQ.maxv sw tw) &&
        PQ.lt (PQ.div (PQ.minv sw tw) (PQ.maxv sw tw)) ⟨7, 10⟩
    | _, _ => false
  else false

/-- Auger/drill bit size must match exactly. -/
def cbAuger (src tgt srcL tgtL : List Char) : Bool :=
  let kws := ["ดอกสว่านเจาะดิน", "ดอกเจาะดิน", "auger bit", "earth auger"]
  if hasKw kws srcL && hasKw kws tgtL then
    match reGrp reIntInch src 1, reGrp reIntInch tgt 1 with
    | some a, some b => parseNat a != parseNat b
    | _, _ => false
  else false

/-- `E27[xX×](\d+)` with IGNORECASE. -/
def reSocketCount : Re := Re.seq (Re.strLitCI "E27") (Re.seq xCls (Re.group 1 digits1))

/-- Socket count mismatch; a multi-socket source with a countless target. -/
def cbSocketCount (src tgt : List Char) : Bool :=
  match reGrp reSocketCount src 1, reGrp reSocketCount tgt 1 with
  | some a, some b => a != b
  | some a, none => decide (1 < parseNat a)
  | _, _ => false

/-- `(\d+/\d+)`. -/
def reFrac : Re :=
  Re.group 1 (Re.seq digits1 (Re.seq (Re.cls (fun c => c == '/')) digits1))

/-- `(\d+)\s*(?:เมตร|ม\.|m\b|meter)` with IGNORECASE. -/
def reIntMeter : Re :=
  Re.seq (Re.group 1 digits1)
    (Re.seq spaces0 (Re.altList [Re.strLit "เมตร", Re.strLit "ม.",
      Re.seq (Re.strLitCI "m") Re.wb, Re.strLitCI "meter"]))

/-- Garden-hose diameter fraction and length conflicts. -/
def cbHose (src tgt srcL tgtL : List Char) : Bool :=
  let kws := ["สายยาง", "hose", "ยางรด"]
  if hasKw kws srcL && hasKw kws tgtL then
    (match reGrp reFrac src 1, reGrp reFrac tgt 1 with
     | some a, some b => a != b
     | _, _ => false) ||
    (match reGrp reIntMeter src 1, reGrp reIntMeter tgt 1 with
     | some a, some b =>
       let s := pqNat (parseNat a)
       let t := pqNat (parseNat b)
       PQ.lt (pqNat 0) (PQ.maxv s t) &&
         PQ.lt (PQ.div (PQ.minv s t) (PQ.maxv s t)) ⟨85, 100⟩
     | _, _ => false)
  else false

/-- Downlight face shape, square vs round. -/
def cbDownlightShape (srcL tgtL : List Char) : Bool :=
  let kws := ["ดาวน์ไลท์", "downlight"]
  if hasKw kws srcL && hasKw kws tgtL then
    let ss := sIn "เหลี่ยม" srcL || sIn "square" srcL
    let sr := sIn "กลม" srcL || sIn "round" srcL
    let ts := sIn "เหลี่ยม" tgtL || sIn "square" tgtL
    let tr := sIn "กลม" tgtL || sIn "round" tgtL
    (ss && tr) || (sr && ts)
  else false

/-- `(\d+)\s*[xX×]\s*(\d+)\s*ขั้น`. -/
def reStepMult : Re :=
  Re.seq (Re.group 1 digits1)
    (Re.seq spaces0 (Re.seq xCls (Re.seq spaces0
      (Re.seq (Re.group 2 digits1) (Re.seq spaces0 (Re.strLit "ขั้น"))))))

/-- `(\d+)\s*(?:ขั้น|ชั้น)`. -/
def reStepSimple : Re :=
  Re.seq (Re.group 1 digits1)
    (Re.seq spaces0 (Re.altList [Re.strLit "ขั้น", Re.strLit "ชั้น"]))

/-- `get_step_count` inside the ladder block (app.py 694-705). -/
def getStepCount (name : List Char) : Option Nat :=
  match reSearch reStepMult name with
  | some m =>
    match m.grp 1, m.grp 2 with
    | some a, some b => some (parseNat a * parseNat b)
    | _, _ => none
  | none =>
    match reGrp reStepSimple name 1 with
    | some a => some (parseNat a)
    | none => none

/-- Ladder step counts within 30% (ratio > 0.7). -/
def cbLadderSteps (src tgt srcL tgtL : List Char) : Bool :=
  let kws := ["บันได", "ladder"]
  if hasKw kws srcL && hasKw kws tgtL then
    match getStepCount src, getStepCount tgt with
    | some s, some t =>
      if s ≠ 0 ∧ t ≠ 0 then
        let sq := pqNat s
        let tq := pqNat t
        PQ.lt (pqNat 0) (PQ.maxv sq tq) &&
          PQ.lt (PQ.div (PQ.minv sq tq) (PQ.maxv sq tq)) ⟨7, 10⟩
      else false
    | _, _ => false
  else false

/-- Paint-brush bristle type, shellac and size conflicts. -/
def cbBrush (src tgt srcL tgtL : List Char) : Bool :=
  let kws := ["แปรง", "brush"]
  if hasKw kws srcL && hasKw kws tgtL then
    let naturalK := ["ขนสัตว์", "natural", "น้ำมัน", "ขนหมู"]
    let synthK := ["สังเคราะห์", "synthetic", "ไนล่อน", "nylon"]
    let sn := hasKw naturalK srcL
    let tn := hasKw naturalK tgtL
    let ss := hasKw synthK srcL
    let ts := hasKw synthK tgtL
    ((ss && tn) || (sn && ts)) ||
    (sn && !tn) ||
    (let ssh := sIn "แชล็ค" srcL || sIn "shellac" srcL
     let tsh := sIn "แชล็ค" tgtL || sIn "shellac" tgtL
     ssh != tsh) ||
    (match reGrp reNumInch src 1, reGrp reNumInch tgt 1 with
     | some a, some b => PQ.lt ⟨1, 2⟩ (PQ.absv (PQ.sub (parsePQ a) (parsePQ b)))
     | _, _ => false)
  else false

/-- Open crate vs solid box (`ลังโปร่ง`/`ลังทึบ`). -/
def cbCrate (srcL tgtL : List Char) : Bool :=
  let kws := ["ลังโปร่ง", "ลังทึบ"]
  if hasKw kws srcL || hasKw kws tgtL then
    let so := sIn "โปร่ง" srcL
    let to_ := sIn "โปร่ง" tgtL
    let ss := sIn "ทึบ" srcL
    let ts := sIn "ทึบ" tgtL
    (so && ts) || (ss && to_)
  else false

/-- Trash can colour must match. -/
def cbTrashColor (srcL tgtL : List Char) : Bool :=
  let kws := ["ถังขยะ", "trash", "garbage bin"]
  if hasKw kws srcL && hasKw kws tgtL then
    let cols := [("แดง", "red"), ("น้ำเงิน", "blue"), ("เหลือง", "yellow"),
      ("เขียว", "green"), ("ดำ", "black"), ("ขาว", "white"), ("ส้ม", "orange")]
    match lastHit2 cols srcL, lastHit2 cols tgtL with
    | some a, some b => a != b
    | _, _ => false
  else false

/-- Cart/trolley type: mesh vs flat conflicts. -/
def cbCart (srcL tgtL : List Char) : Bool :=
  let kws := ["รถเข็น", "trolley", "cart"]
  if hasKw kws srcL && hasKw kws tgtL then
    let sm := sIn "ตะแกรง" srcL || sIn "mesh" srcL || sIn "basket" srcL
    let tm := sIn "ตะแกรง" tgtL || sIn "mesh" tgtL || sIn "basket" tgtL
    let sf := sIn "ท้องแบน" srcL || sIn "flat" srcL || sIn "platform" srcL
    let tf := sIn "ท้องแบน" tgtL || sIn "flat" tgtL || sIn "platform" tgtL
    (sm && !tm) || (sf && !tf) || (sm && tf) || (sf && tm)
  else false

/-- Door frame WPC vs UPVC. -/
def cbDoorframeMat (srcL tgtL : List Char) : Bool :=
  let kws := ["วงกบ", "door frame"]
  if hasKw kws srcL && hasKw kws tgtL then
    let sw := sIn "wpc" srcL
    let tw := sIn "wpc" tgtL
    let su := sIn "upvc" srcL
    let tu := sIn "upvc" tgtL
    (sw && tu) || (su && tw)
  else false

/-- `[xX]` (without `×`). -/
def xCls2 : Re := Re.cls (fun c => c == 'x' || c == 'X')

/-- `\(1[xX](\d+)\)`. -/
def reParen1xN : Re :=
  Re.seq (Re.strLit "(1") (Re.seq xCls2 (Re.seq (Re.group 1 digits1) (Re.strLit ")")))

/-- `(?:แพ็ก|แพ็ค|pack)\s*(\d+)` with IGNORECASE. -/
def rePackN : Re :=
  Re.seq (Re.altList [Re.strLit "แพ็ก", Re.strLit "แพ็ค", Re.strLitCI "pack"])
    (Re.seq spaces0 (Re.group 1 digits1))

/-- `get_pack_count` of the hanger block (app.py 820-829). -/
def getPackCount (name : List Char) : Option Nat :=
  match reGrp reParen1xN name 1 with
  | some a => some (parseNat a)
  | none =>
    match reGrp rePackN name 1 with
    | some a => some (parseNat a)
    | none => none

/-- Hanger pack counts must agree. -/
def cbHangerPack (src tgt srcL tgtL : List Char) : Bool :=
  let kws := ["ไม้แขวน", "hanger"]
  if hasKw kws srcL && hasKw kws tgtL then
    match getPackCount src, getPackCount tgt with
    | some s, some t => decide (s ≠ 0 ∧ t ≠ 0 ∧ s ≠ t)
    | _, _ => false
  else false

/-- Cloth/wipe pack counts must agree (string compare). -/
def cbClothPack (src tgt srcL tgtL : List Char) : Bool :=
  let kws := ["ผ้าเช็ด", "cloth", "wipe"]
  if hasKw kws srcL && hasKw kws tgtL then
    match reGrp rePackN src 1, reGrp rePackN tgt 1 with
    | some a, some b => a != b
    | _, _ => false
  else false

/-- Waiting/lounge chair vs stool. -/
def cbChairStool (srcL tgtL : List Char) : Bool :=
  let kws := ["เก้าอี้", "chair", "stool"]
  if hasKw kws srcL && hasKw kws tgtL then
    let sw := sIn "พักคอย" srcL || sIn "พักผ่อน" srcL || sIn "waiting" srcL
    let tw := sIn "พักคอย" tgtL || sIn "พักผ่อน" tgtL || sIn "waiting" tgtL
    let ss := sIn "กลม" srcL || sIn "สเตนเลส" srcL || sIn "stool" srcL
    let ts := sIn "กลม" tgtL || sIn "สเตนเลส" tgtL || sIn "stool" tgtL
    (sw && ts) || (ss && tw)
  else false

/-- `แพ็ก\s*\d+`. -/
def rePakDigits : Re := Re.seq (Re.strLit "แพ็ก") (Re.seq spaces0 digits1)

/-- Scissors single vs set.  Python compares `'ชุด' in s or 'set' in s or
re.search(...)` values with `!=`: two `Match` objects are never equal, so
the comparison is equal only when both sides are the boolean `True` or both
are `None`.  Encoded as a three-valued flag. -/
def cbScissors (srcL tgtL : List Char) : Bool :=
  let kws := ["กรรไกร", "scissors"]
  if hasKw kws srcL && hasKw kws tgtL then
    let flag : List Char → Nat := fun l =>
      if sIn "ชุด" l || sIn "set" l then 0
      else if reHas rePakDigits l then 1 else 2
    let sf := flag srcL
    let tf := flag tgtL
    !((sf == 0 && tf == 0) || (sf == 2 && tf == 2))
  else false

/-- Hanging rack vs rolling shelf (no keyword guard). -/
def cbHangingRolling (srcL tgtL : List Char) : Bool :=
  let sh := sIn "ราวแขวน" srcL || sIn "hanging rack" srcL
  let th := sIn "ราวแขวน" tgtL || sIn "hanging rack" tgtL
  let srs := (sIn "ชั้นวาง" srcL || sIn "shelf" srcL) && (sIn "ล้อ" srcL || sIn "roll" srcL)
  let trs := (sIn "ชั้นวาง" tgtL || sIn "shelf" tgtL) && (sIn "ล้อ" tgtL || sIn "roll" tgtL)
  (sh && trs) || (th && srs)

/-- Drying rack wing vs bar style. -/
def cbDrying (srcL tgtL : List Char) : Bool :=
  let kws := ["ราวตากผ้า", "ราวแขวน", "drying rack"]
  if hasKw kws srcL && hasKw kws tgtL then
    let sw := sIn "กางปีก" srcL || sIn "wing" srcL
    let tw := sIn "กางปีก" tgtL || sIn "wing" tgtL
    (sw && !tw) || (tw && !sw)
  else false

/-- Waterproof box colour must match. -/
def cbWpBox (srcL tgtL : List Char) : Bool :=
  let kws := ["กล่องกันน้ำ", "waterproof box"]
  if hasKw kws srcL && hasKw kws tgtL then
    let cols := ["ขาว", "เหลือง", "เทา", "ดำ", "white", "yellow", "gray", "black"]
    match lastHit cols srcL, lastHit cols tgtL with
    | some a, some b => a != b
    | _, _ => false
  else false

/-- Sofa L-shape / sofa-bed conflicts. -/
def cbSofa (srcL tgtL : List Char) : Bool :=
  let kws := ["โซฟา", "sofa"]
  if hasKw kws srcL && hasKw kws tgtL then
    let sl := sIn "ตัวแอล" srcL || sIn "l-shape" srcL || sIn "l shape" srcL
    let tl := sIn "ตัวแอล" tgtL || sIn "l-shape" tgtL || sIn "l shape" tgtL
    let sb := sIn "เบด" srcL || sIn "bed" srcL
    let tb := sIn "เบด" tgtL || sIn "bed" tgtL
    (sl && tb) || (sb && tl) || (sl && !tl) || (sb && !tb)
  else false

/-- `ชุด\s*(\d+)`. -/
def reChudN : Re := Re.seq (Re.strLit "ชุด") (Re.seq spaces0 (Re.group 1 digits1))

/-- Picnic stove set vs non-set. -/
def cbStove (src tgt srcL tgtL : List Char) : Bool :=
  let kws := ["เตาแก๊ส", "gas stove", "เตาปิกนิก"]
  if hasKw kws srcL && hasKw kws tgtL then
    reHas reChudN src && !reHas reChudN tgt
  else false

/-- Ball valve way count, 2-way vs regular. -/
def cbValve2Way (srcL tgtL : List Char) : Bool :=
  let kws := ["ก๊อกบอล", "ball valve"]
  if hasKw kws srcL && hasKw kws tgtL then
    let s2 := sIn "2 ทาง" srcL || sIn "two way" srcL || sIn "2-way" srcL
    let t2 := sIn "2 ทาง" tgtL || sIn "two way" tgtL || sIn "2-way" tgtL
    s2 != t2
  else false

/-- Dish rack stainless vs aluminum. -/
def cbDishrackMat (srcL tgtL : List Char) : Bool :=
  let kws := ["ชั้นคว่ำจาน", "ที่คว่ำจาน", "dish rack"]
  if hasKw kws srcL && hasKw kws tgtL then
    let ss := sIn "สเตนเลส" srcL || sIn "stainless" srcL
    let ts := sIn "สเตนเลส" tgtL || sIn "stainless" tgtL
    let sa := sIn "อลูมิเนียม" srcL || sIn "aluminum" srcL
    let ta := sIn "อลูมิเนียม" tgtL || sIn "aluminum" tgtL
    (ss && ta) || (sa && ts)
  else false

/-- Downlight surface mount vs recessed. -/
def cbDownlightMount (srcL tgtL : List Char) : Bool :=
  if (sIn "ดาวน์ไลท์" srcL || sIn "downlight" srcL) &&
      (sIn "ดาวน์ไลท์" tgtL || sIn "downlight" tgtL) then
    let ss := sIn "ติดลอย" srcL || sIn "surface" srcL
    let ts := sIn "ติดลอย" tgtL || sIn "surface" tgtL
    let sr := sIn "ฝัง" srcL || sIn "recessed" srcL
    let tr := sIn "ฝัง" tgtL || sIn "recessed" tgtL
    (ss && tr) || (sr && ts)
  else false

/-- Broom nylon vs other. -/
def cbBroom (srcL tgtL : List Char) : Bool :=
  let kws := ["ไม้กวาด", "broom"]
  if hasKw kws srcL && hasKw kws tgtL then
    (sIn "ไนล่อน" srcL || sIn "nylon" srcL) != (sIn "ไนล่อน" tgtL || sIn "nylon" tgtL)
  else false

/-- Ladder tray vs handle feature. -/
def cbLadderTray (srcL tgtL : List Char) : Bool :=
  let kws := ["บันได", "ladder"]
  if hasKw kws srcL && hasKw kws tgtL then
    let st := sIn "ถาด" srcL || sIn "tray" srcL
    let tt := sIn "ถาด" tgtL || sIn "tray" tgtL
    let th := sIn "มือจับ" tgtL || sIn "ด้ามจับ" tgtL || sIn "handle" tgtL
    st && th && !tt
  else false

/-- Drawer cabinet wood top. -/
def cbWoodTop (srcL tgtL : List Char) : Bool :=
  let kws := ["ตู้ลิ้นชัก", "drawer cabinet", "ตู้เก็บของ"]
  if hasKw kws srcL && hasKw kws tgtL then
    let sw := sIn "ท็อปไม้" srcL || sIn "wood top" srcL
    let tw := sIn "ท็อปไม้" tgtL || sIn "wood top" tgtL
    sw && !tw
  else false

/-- Baseboard PS vs WPC. -/
def cbBaseboard (srcL tgtL : List Char) : Bool :=
  let kws := ["บัวพื้น", "บัวล่าง", "baseboard", "skirting"]
  if hasKw kws srcL && hasKw kws tgtL then
    let sp := sIn "โพลีสไตรีน" srcL || sIn "ps " srcL || sIn "(ps)" srcL
    let tp := sIn "โพลีสไตรีน" tgtL || sIn "ps " tgtL || sIn "(ps)" tgtL
    let sw := sIn "wpc" srcL
    let tw := sIn "wpc" tgtL
    (sp && tw) || (sw && tp)
  else false

/-- Frying pan stainless handle. -/
def cbPanHandle (srcL tgtL : List Char) : Bool :=
  let kws := ["กระทะ", "frying pan", "pan"]
  if hasKw kws srcL && hasKw kws tgtL then
    let sh := sIn "ด้ามสเตนเลส" srcL || sIn "stainless handle" srcL
    let th := sIn "ด้ามสเตนเลส" tgtL || sIn "stainless handle" tgtL
    sh && !th
  else false

/-- Scaffold wheel single vs double. -/
def cbScaffoldWheel (srcL tgtL : List Char) : Bool :=
  let kws := ["ล้อนั่งร้าน", "ลูกล้อนั่งร้าน", "scaffold wheel", "caster"]
  if hasKw kws srcL && hasKw kws tgtL then
    let sd := sIn "ล้อคู่" srcL || sIn "double" srcL
    let td := sIn "ล้อคู่" tgtL || sIn "double" tgtL
    let ss := sIn "ล้อเดี่ยว" srcL || sIn "single" srcL
    let ts := sIn "ล้อเดี่ยว" tgtL || sIn "single" tgtL
    (sd && ts) || (ss && td)
  else false

/-- Door frame wood colour (first colour table). -/
def cbDoorframeColor1 (srcL tgtL : List Char) : Bool :=
  let kws := ["วงกบ", "door frame"]
  if hasKw kws srcL && hasKw kws tgtL then
    let cols := ["ออริจินัล", "โอ๊ค", "วอลนัท", "เชอรี่", "มะฮอกกานี",
      "original", "oak", "walnut", "cherry", "mahogany"]
    match lastHit cols srcL, lastHit cols tgtL with
    | some a, some b => a != b
    | _, _ => false
  else false

/-- Wheelbarrow twin vs single wheel. -/
def cbWheelbarrow (srcL tgtL : List Char) : Bool :=
  let kws := ["รถเข็นปูน", "wheelbarrow"]
  if hasKw kws srcL && hasKw kws tgtL then
    let st := sIn "ล้อคู่" srcL || sIn "twin" srcL
    let tt := sIn "ล้อคู่" tgtL || sIn "twin" tgtL
    let ss := sIn "ล้อเดี่ยว" srcL || sIn "single" srcL
    let ts := sIn "ล้อเดี่ยว" tgtL || sIn "single" tgtL
    (st && !tt) || (ss && !ts)
  else false

/-- Hanger iron/wood material. -/
def cbHangerMat (srcL tgtL : List Char) : Bool :=
  let kws := ["ไม้แขวน", "hanger"]
  if hasKw kws srcL && hasKw kws tgtL then
    let si := sIn "หัวเหล็ก" srcL || sIn "iron" srcL
    let ti := sIn "หัวเหล็ก" tgtL || sIn "iron" tgtL
    let sw := sIn "ไม้" srcL || sIn "wood" srcL
    let tw := sIn "ไม้" tgtL || sIn "wood" tgtL
    (si && !ti) || (sw && !tw)
  else false

/-- Paint roller size must match exactly. -/
def cbRollerSize (src tgt srcL tgtL : List Char) : Bool :=
  let kws := ["ลูกกลิ้ง", "roller"]
  if hasKw kws srcL && hasKw kws tgtL then
    match reGrp reIntInch src 1, reGrp reIntInch tgt 1 with
    | some a, some b => parseNat a != parseNat b
    | _, _ => false
  else false

/-- Lighting clear vs black colour. -/
def cbLightColor (srcL tgtL : List Char) : Bool :=
  let kws := ["โคมไฟ", "ไฟหัวเสา", "ไฟผนัง", "ไฟกิ่ง", "lamp", "light"]
  if hasKw kws srcL && hasKw kws tgtL then
    let sc := sIn "ใส" srcL || sIn "clear" srcL || sIn "(cl)" srcL
    let tc := sIn "ใส" tgtL || sIn "clear" tgtL || sIn "(cl)" tgtL
    let sb := sIn "ดำ" srcL || sIn "black" srcL || sIn "(bk)" srcL
    let tb := sIn "ดำ" tgtL || sIn "black" tgtL || sIn "(bk)" tgtL
    (sc && tb) || (sb && tc)
  else false

/-- Track light white vs black. -/
def cbTrackLight (srcL tgtL : List Char) : Bool :=
  let kws := ["แทรคไลท์", "แท็คไลท์", "track light", "tracklight"]
  if hasKw kws srcL && hasKw kws tgtL then
    let sw := sIn "ขาว" srcL || sIn "white" srcL || sIn "-wh" srcL
    let tw := sIn "ขาว" tgtL || sIn "white" tgtL
    let sb := sIn "ดำ" srcL || sIn "black" srcL || sIn "-bk" srcL
    let tb := sIn "ดำ" tgtL || sIn "black" tgtL
    (sw && tb) || (sb && tw)
  else false

/-- `led\s*(\d+)\s*w` (searched on the lowered name). -/
def reLedWatt : Re :=
  Re.seq (Re.strLit "led")
    (Re.seq spaces0 (Re.seq (Re.group 1 digits1) (Re.seq spaces0 (Re.strLit "w"))))

/-- LED wall lamp wattage within 30% and black/white colour. -/
def cbLedWall (srcL tgtL : List Char) : Bool :=
  let kws := ["ไฟผนัง", "โคมไฟผนัง", "wall lamp", "wall light"]
  if (hasKw kws srcL && sIn "led" srcL) && (hasKw kws tgtL && sIn "led" tgtL) then
    (match reGrp reLedWatt srcL 1, reGrp reLedWatt tgtL 1 with
     | some a, some b =>
       let s := pqNat (parseNat a)
       let t := pqNat (parseNat b)
       PQ.lt ⟨3, 10⟩ (PQ.div (PQ.absv (PQ.sub s t)) (PQ.maxv s t))
     | _, _ => false) ||
    (let sb := sIn "ดำ" srcL || sIn "black" srcL || sIn "bk" srcL
     let tw := sIn "ขาว" tgtL || sIn "white" tgtL
     let sw := sIn "ขาว" srcL || sIn "white" srcL
     let tb := sIn "ดำ" tgtL || sIn "black" tgtL || sIn "bk" tgtL
     (sb && tw) || (sw && tb))
  else false

/-- `(\d+)\s*[xX×]\s*(\d+(?:-\d+)?(?:/\d+)?)`. -/
def reScrewDim : Re :=
  Re.seq (Re.group 1 digits1)
    (Re.seq spaces0 (Re.seq xCls (Re.seq spaces0
      (Re.group 2 (Re.seq digits1 (Re.seq
        (Re.opt (Re.seq (Re.cls (fun c => c == '-')) digits1))
        (Re.opt (Re.seq (Re.cls (fun c => c == '/')) digits1))))))))

/-- Screw/fastener dimensions must match exactly. -/
def cbScrewDim (src tgt srcL tgtL : List Char) : Bool :=
  let kws := ["สกรู", "screw", "น็อต", "bolt", "ตะปู", "nail"]
  if hasKw kws srcL && hasKw kws tgtL then
    match reSearch reScrewDim src, reSearch reScrewDim tgt with
    | some m1, some m2 => (m1.grp 1 != m2.grp 1) || (m1.grp 2 != m2.grp 2)
    | _, _ => false
  else false

/-- Door knob head type and plate size. -/
def cbKnob (srcL tgtL : List Char) : Bool :=
  let kws := ["ลูกบิด", "door knob", "knob"]
  if hasKw kws srcL && hasKw kws tgtL then
    let sr := sIn "หัวกลม" srcL || sIn "round" srcL
    let tr := sIn "หัวกลม" tgtL || sIn "round" tgtL
    let sm := sIn "หัวจัน" srcL || sIn "moon" srcL
    let tm := sIn "หัวจัน" tgtL || sIn "moon" tgtL
    ((sr && tm) || (sm && tr)) ||
    (let slp := sIn "จานใหญ่" srcL || sIn "large plate" srcL
     let tlp := sIn "จานใหญ่" tgtL || sIn "large plate" tgtL
     let ssp := sIn "จานเล็ก" srcL || sIn "small plate" srcL
     let tsp := sIn "จานเล็ก" tgtL || sIn "small plate" tgtL
     (slp && !tlp) || (ssp && !tsp))
  else false

/-- Storage box with wheels vs without. -/
def cbStorageWheels (srcL tgtL : List Char) : Bool :=
  let kws := ["กล่องเก็บของ", "กล่องอเนกประสงค์", "storage box"]
  if hasKw kws srcL && hasKw kws tgtL then
    let sw := sIn "ล้อ" srcL || sIn "wheel" srcL
    let tw := sIn "ล้อ" tgtL || sIn "wheel" tgtL
    sw && !tw
  else false

/-- Hanger wire vs plastic. -/
def cbHangerWire (srcL tgtL : List Char) : Bool :=
  let kws := ["ไม้แขวน", "hanger"]
  if hasKw kws srcL && hasKw kws tgtL then
    let sw := sIn "ลวด" srcL || sIn "wire" srcL
    let tw := sIn "ลวด" tgtL || sIn "wire" tgtL
    let sp := sIn "พลาสติก" srcL || sIn "plastic" srcL
    let tp := sIn "พลาสติก" tgtL || sIn "plastic" tgtL
    (sw && tp) || (sp && tw)
  else false

/-- Cloth/wipe colour must match. -/
def cbClothColor (srcL tgtL : List Char) : Bool :=
  let kws := ["ผ้าเช็ด", "cloth", "wipe"]
  if hasKw kws srcL && hasKw kws tgtL then
    let cols := ["เขียว", "เทา", "ฟ้า", "ชมพู", "ขาว", "green", "gray", "blue", "pink", "white"]
    match lastHit cols srcL, lastHit cols tgtL with
    | some a, some b => a != b
    | _, _ => false
  else false

/-- Face mask colour must match. -/
def cbMask (srcL tgtL : List Char) : Bool :=
  let kws := ["หน้ากาก", "mask", "หน้ากากอนามัย"]
  if hasKw kws srcL && hasKw kws tgtL then
    let cols := ["เขียว", "ขาว", "ดำ", "ฟ้า", "green", "white", "black", "blue"]
    match lastHit cols srcL, lastHit cols tgtL with
    | some a, some b => a != b
    | _, _ => false
  else false

/-- Dish rack small vs large. -/
def cbDishrackSize (srcL tgtL : List Char) : Bool :=
  let kws := ["ชั้นคว่ำจาน", "ที่คว่ำจาน", "dish rack"]
  if hasKw kws srcL && hasKw kws tgtL then
    let ssm := sIn "เล็ก" srcL || sIn "small" srcL
    let tsm := sIn "เล็ก" tgtL || sIn "small" tgtL
    let slg := sIn "ใหญ่" srcL || sIn "large" srcL
    let tlg := sIn "ใหญ่" tgtL || sIn "large" tgtL
    (ssm && tlg) || (slg && tsm) || (ssm && !tsm)
  else false

/-- Dining chair rubber wood vs rotating. -/
def cbDiningMat (srcL tgtL : List Char) : Bool :=
  let kws := ["เก้าอี้ทานอาหาร", "เก้าอี้ห้องอาหาร", "dining chair"]
  if hasKw kws srcL && hasKw kws tgtL then
    let srw := sIn "ไม้ยางพารา" srcL || sIn "rubber wood" srcL
    let trw := sIn "ไม้ยางพารา" tgtL || sIn "rubber wood" tgtL
    let sro := sIn "หมุน" srcL || sIn "rotating" srcL || sIn "swivel" srcL
    let tro := sIn "หมุน" tgtL || sIn "rotating" tgtL || sIn "swivel" tgtL
    (srw && tro) || (sro && trw)
  else false

/-- Paint brush vs putty knife / scraper. -/
def cbBrushScraper (srcL tgtL : List Char) : Bool :=
  let bkws := ["แปรงทาสี", "แปรงทา", "paint brush"]
  let skws := ["เกรียง", "scraper", "putty knife", "โป๊ว"]
  (hasKw bkws srcL && hasKw skws tgtL) || (hasKw skws srcL && hasKw bkws tgtL)

/-- Drawer cabinet vs door cabinet. -/
def cbDrawerDoor (srcL tgtL : List Char) : Bool :=
  let dkws := ["ตู้ลิ้นชัก", "drawer cabinet", "chest of drawers"]
  let okws := ["ตู้บานเปิด", "door cabinet", "บานเปิด"]
  (hasKw dkws srcL && hasKw okws tgtL) || (hasKw okws srcL && hasKw dkws tgtL)

/-- Hanging rail vs regular shelf. -/
def cbHangingRail (srcL tgtL : List Char) : Bool :=
  let rkws := ["ราวแขวน", "hanging rack", "hanging rail", "clothes rail"]
  let skws := ["ชั้นวางของ", "shelf", "shelving"]
  hasKw rkws srcL && (hasKw skws tgtL && !hasKw rkws tgtL)

/-- Door with vs without a knob hole. -/
def cbDoorDrilled (srcL tgtL : List Char) : Bool :=
  let kws := ["ประตู", "door"]
  if hasKw kws srcL && hasKw kws tgtL then
    let sd := sIn "เจาะลูกบิด" srcL || sIn "เจาะ" srcL
    let td := sIn "เจาะลูกบิด" tgtL || sIn "เจาะ" tgtL
    let snd := sIn "ไม่เจาะ" srcL || sIn "not drilled" srcL
    let tnd := sIn "ไม่เจาะ" tgtL || sIn "not drilled" tgtL
    (snd && td) || (sd && tnd)
  else false

/-- Electrical box recessed vs surface. -/
def cbElecBox (srcL tgtL : List Char) : Bool :=
  let kws := ["บล็อกฝัง", "บล็อก", "handy box", "junction box"]
  if hasKw kws srcL && hasKw kws tgtL then
    let sr := sIn "บล็อกฝัง" srcL || sIn "ฝัง" srcL || sIn "recessed" srcL
    let tr := sIn "บล็อกฝัง" tgtL || sIn "ฝัง" tgtL || sIn "recessed" tgtL
    let ss := sIn "แฮนดี้บ๊อกซ์" srcL || sIn "handy" srcL || sIn "surface" srcL
    let ts := sIn "แฮนดี้บ๊อกซ์" tgtL || sIn "handy" tgtL || sIn "surface" tgtL
    (sr && ts) || (ss && tr)
  else false

/-- `(\d+(?:\.\d+)?)\s*(?:ซม\.|cm|เซนติเมตร)` with IGNORECASE. -/
def reNumCm : Re :=
  Re.seq (Re.group 1 reNum)
    (Re.seq spaces0 (Re.altList [Re.strLit "ซม.", Re.strLitCI "cm", Re.strLit "เซนติเมตร"]))

/-- Wheel/caster size within 20% (cm, inches converted at 2.54). -/
def cbWheelSize (src tgt srcL tgtL : List Char) : Bool :=
  let kws := ["ล้อยาง", "ลูกล้อ", "ล้อ", "wheel", "caster"]
  if hasKw kws srcL && hasKw kws tgtL then
    let size : List Char → Option PQ := fun n =>
      match reGrp reNumCm n 1 with
      | some a => some (parsePQ a)
      | none =>
        match reGrp reNumInch n 1 with
        | some a => some (PQ.mul (parsePQ a) ⟨127, 50⟩)
        | none => none
    match size src, size tgt with
    | some s, some t =>
      if !(PQ.eqv s (pqNat 0)) && !(PQ.eqv t (pqNat 0)) then
        PQ.lt (pqNat 0) (PQ.maxv s t) &&
          PQ.lt (PQ.div (PQ.minv s t) (PQ.maxv s t)) ⟨8, 10⟩
      else false
    | _, _ => false
  else false

/-- `(\d+)\s*(?:ชิ้น|pcs|pieces|piece)` with IGNORECASE. -/
def rePieces : Re :=
  Re.seq (Re.group 1 digits1)
    (Re.seq spaces0 (Re.altList [Re.strLit "ชิ้น", Re.strLitCI "pcs",
      Re.strLitCI "pieces", Re.strLitCI "piece"]))

/-- Tool set piece count within 30%. -/
def cbToolset (src tgt srcL tgtL : List Char) : Bool :=
  let kws := ["ชุดเครื่องมือ", "tool set", "เครื่องมือช่าง"]
  if hasKw kws srcL && hasKw kws tgtL then
    match reGrp rePieces src 1, reGrp rePieces tgt 1 with
    | some a, some b =>
      let s := parseNat a
      let t := parseNat b
      if 0 < s ∧ 0 < t then
        let sq := pqNat s
        let tq := pqNat t
        PQ.lt (PQ.div (PQ.minv sq tq) (PQ.maxv sq tq)) ⟨7, 10⟩
      else false
    | _, _ => false
  else false

/-- `(\d+)\s*(?:x|X|×)\s*\d+`. -/
def reLenX : Re :=
  Re.seq (Re.group 1 digits1) (Re.seq spaces0 (Re.seq xCls (Re.seq spaces0 digits1)))

/-- Table length within 25%. -/
def cbTableSize (src tgt srcL tgtL : List Char) : Bool :=
  let kws := ["โต๊ะ", "table"]
  if hasKw kws srcL && hasKw kws tgtL then
    match reGrp reLenX src 1, reGrp reLenX tgt 1 with
    | some a, some b =>
      let s := parseNat a
      let t := parseNat b
      if 0 < s ∧ 0 < t then
        let sq := pqNat s
        let tq := pqNat t
        PQ.lt (PQ.div (PQ.minv sq tq) (PQ.maxv sq tq)) ⟨3, 4⟩
      else false
    | _, _ => false
  else false

/-- Ball valve vs gate valve (no guard). -/
def cbBallGate (srcL tgtL : List Char) : Bool :=
  let sb := sIn "ก๊อกบอล" srcL || sIn "ball valve" srcL
  let tb := sIn "ก๊อกบอล" tgtL || sIn "ball valve" tgtL
  let sg := sIn "ประตูน้ำ" srcL || sIn "gate valve" srcL
  let tg := sIn "ประตูน้ำ" tgtL || sIn "gate valve" tgtL
  (sb && tg) || (sg && tb)

/-- Open crate vs solid storage box (no guard). -/
def cbCrateBox (srcL tgtL : List Char) : Bool :=
  let so := sIn "ลังโปร่ง" srcL || sIn "open crate" srcL
  let to_ := sIn "ลังโปร่ง" tgtL || sIn "open crate" tgtL
  let ss := sIn "กล่องเก็บของ" srcL || sIn "storage box" srcL
  let ts := sIn "กล่องเก็บของ" tgtL || sIn "storage box" tgtL
  (so && ts) || (ss && to_)

/-- `(\d+\s*\d*/?\d*)\s*(?:นิ้ว|inch|"|″)` with IGNORECASE. -/
def reThick : Re :=
  Re.seq (Re.group 1 (Re.seq digits1 (Re.seq (Re.star sChr) (Re.seq (Re.star dChr)
    (Re.seq (Re.opt (Re.cls (fun c => c == '/'))) (Re.star dChr))))))
    (Re.seq spaces0 inchUnit)

/-- Foam thickness must match (stripped string compare). -/
def cbFoam (src tgt srcL tgtL : List Char) : Bool :=
  let kws := ["โฟมแผ่น", "foam sheet", "foam"]
  if hasKw kws srcL && hasKw kws tgtL then
    match reGrp reThick src 1, reGrp reThick tgt 1 with
    | some a, some b => trimL a != trimL b
    | _, _ => false
  else false

/-- Waiting chair vs steel chair (no guard). -/
def cbWaitingSteel (srcL tgtL : List Char) : Bool :=
  let sw := sIn "พักคอย" srcL || sIn "พักผ่อน" srcL || sIn "waiting" srcL
  let tw := sIn "พักคอย" tgtL || sIn "พักผ่อน" tgtL || sIn "waiting" tgtL
  let ss := sIn "เก้าอี้เหล็ก" srcL || sIn "steel chair" srcL
  let ts := sIn "เก้าอี้เหล็ก" tgtL || sIn "steel chair" tgtL
  (sw && ts) || (ss && tw)

/-- Thinner sold by weight vs volume. -/
def cbThinner (srcL tgtL : List Char) : Bool :=
  let kws := ["ทินเนอร์", "thinner"]
  if hasKw kws srcL && hasKw kws tgtL then
    let skg := sIn "กก." srcL || sIn "kg" srcL
    let tkg := sIn "กก." tgtL || sIn "kg" tgtL
    let sl := sIn "ลิตร" srcL || sIn "liter" srcL
    let tl := sIn "ลิตร" tgtL || sIn "liter" tgtL
    (skg && tl) || (sl && tkg)
  else false

/-- Screw head type. -/
def cbScrewHead (srcL tgtL : List Char) : Bool :=
  let kws := ["สกรู", "screw", "น็อต", "bolt", "ตะปู", "nail"]
  if hasKw kws srcL && hasKw kws tgtL then
    let sw := sIn "เวเฟอร์" srcL || sIn "wafer" srcL
    let tw := sIn "เวเฟอร์" tgtL || sIn "wafer" tgtL
    let sd := sIn "ไดร์วอลล์" srcL || sIn "drywall" srcL
    let td := sIn "ไดร์วอลล์" tgtL || sIn "drywall" tgtL
    let sf := sIn "หัวเรียบ" srcL || sIn "flat head" srcL
    let tf := sIn "หัวเรียบ" tgtL || sIn "flat head" tgtL
    (sw && !tw) || (sd && !td) || (sf && !tf)
  else false

/-- `(\d+)\s*(?:ชิ้น|ที่นั่ง|pieces?|seats?)` with IGNORECASE. -/
def rePieceSeat : Re :=
  Re.seq (Re.group 1 digits1)
    (Re.seq spaces0 (Re.altList [Re.strLit "ชิ้น", Re.strLit "ที่นั่ง",
      Re.seq (Re.strLitCI "piece") (Re.opt (Re.strLitCI "s")),
      Re.seq (Re.strLitCI "seat") (Re.opt (Re.strLitCI "s"))]))

/-- Garden furniture set piece count must agree (string compare). -/
def cbGardenSet (src tgt srcL tgtL : List Char) : Bool :=
  let kws := ["ชุดโต๊ะสนาม", "ชุดสนาม", "garden set", "patio set"]
  if hasKw kws srcL && hasKw kws tgtL then
    match reGrp rePieceSeat src 1, reGrp rePieceSeat tgt 1 with
    | some a, some b => a != b
    | _, _ => false
  else false

/-- Natural bristle source needs a natural bristle target. -/
def cbBrushNatural (srcL tgtL : List Char) : Bool :=
  let kws := ["แปรง", "brush"]
  if hasKw kws srcL && hasKw kws tgtL then
    (sIn "ขนสัตว์" srcL || sIn "natural bristle" srcL) &&
      !(sIn "ขนสัตว์" tgtL) && !(sIn "natural" tgtL)
  else false

/-- Ceramic vs Teflon cookware coating. -/
def cbCookwareCoat (srcL tgtL : List Char) : Bool :=
  let kws := ["หม้อ", "กระทะ", "pot", "pan", "cookware"]
  if hasKw kws srcL && hasKw kws tgtL then
    let sc := sIn "เซรามิก" srcL || sIn "ceramic" srcL
    let tc := sIn "เซรามิก" tgtL || sIn "ceramic" tgtL
    let st := sIn "เทฟลอน" srcL || sIn "teflon" srcL || sIn "tefal" srcL
    let tt := sIn "เทฟลอน" tgtL || sIn "teflon" tgtL || sIn "tefal" tgtL
    (sc && tt) || (st && tc)
  else false

/-- Caulking gun sausage type. -/
def cbCaulk (srcL tgtL : List Char) : Bool :=
  let kws := ["ปืนยิงยาแนว", "ปืนยิงซิลิโคน", "caulking gun", "silicone gun"]
  if hasKw kws srcL && hasKw kws tgtL then
    (sIn "ไส้กรอก" srcL || sIn "sausage" srcL) && !(sIn "ไส้กรอก" tgtL || sIn "sausage" tgtL)
  else false

/-- Lounge chair colour must match. -/
def cbLoungeColor (srcL tgtL : List Char) : Bool :=
  let kws := ["เก้าอี้พักผ่อน", "lounge chair", "relaxation chair"]
  if hasKw kws srcL && hasKw kws tgtL then
    let cols := ["น้ำเงิน", "เทา", "ดำ", "ขาว", "แดง", "เบจ",
      "blue", "gray", "black", "white", "red", "beige"]
    match lastHit cols srcL, lastHit cols tgtL with
    | some a, some b => a != b
    | _, _ => false
  else false

/-- Cable reel breaker requirement. -/
def cbReel (srcL tgtL : List Char) : Bool :=
  let kws := ["ล้อเก็บสายไฟ", "cable reel", "extension reel"]
  if hasKw kws srcL && hasKw kws tgtL then
    let sb := sIn "เบรกเกอร์" srcL || sIn "กันไฟดูด" srcL || sIn "breaker" srcL || sIn "rcd" srcL
    let tb := sIn "เบรกเกอร์" tgtL || sIn "กันไฟดูด" tgtL || sIn "breaker" tgtL || sIn "rcd" tgtL
    sb && !tb
  else false

/-- Hanger colour must match. -/
def cbHangerColor (srcL tgtL : List Char) : Bool :=
  let kws := ["ไม้แขวน", "hanger"]
  if hasKw kws srcL && hasKw kws tgtL then
    let cols := ["ขาว", "เขียว", "ชมพู", "ดำ", "น้ำเงิน",
      "white", "green", "pink", "black", "blue", "ออฟไวท์", "off-white"]
    match lastHit cols srcL, lastHit cols tgtL with
    | some a, some b => a != b
    | _, _ => false
  else false

/-- Downlight E27 socket vs integrated LED. -/
def cbDownlightE27 (srcL tgtL : List Char) : Bool :=
  let kws := ["ดาวน์ไลท์", "downlight"]
  if hasKw kws srcL && hasKw kws tgtL then
    sIn "e27" srcL && !(sIn "e27" tgtL)
  else false

/-- `(?:แพ็[กค]|pack|แพ็ค)\s*(\d+)|(\d+)\s*(?:ตัว|ชิ้น|pcs|piece|อัน)`
with IGNORECASE (searched on the lowered names). -/
def rePackGlobal : Re :=
  Re.alt
    (Re.seq (Re.altList [Re.seq (Re.strLit "แพ็") (Re.cls (fun c => c == 'ก' || c == 'ค')),
        Re.strLitCI "pack", Re.strLit "แพ็ค"])
      (Re.seq spaces0 (Re.group 1 digits1)))
    (Re.seq (Re.group 2 digits1)
      (Re.seq spaces0 (Re.altList [Re.strLit "ตัว", Re.strLit "ชิ้น",
        Re.strLitCI "pcs", Re.strLitCI "piece", Re.strLit "อัน"])))

/-- `int(m.group(1) or m.group(2))`. -/
def packQty (m : MSt) : Nat :=
  match m.grp 1 with
  | some a => parseNat a
  | none => (m.grp 2).elim 0 parseNat

/-- Global pack-quantity conflict (no keyword guard, app.py 1525-1534). -/
def cbPackGlobal (srcL tgtL : List Char) : Bool :=
  match reSearch rePackGlobal srcL, reSearch rePackGlobal tgtL with
  | some ms, some mt =>
    let sq := packQty ms
    let tq := packQty mt
    decide (sq ≠ tq ∧ (10 ≤ sq ∨ 10 ≤ tq ∨ (2 < if sq ≤ tq then tq - sq else sq - tq)))
  | _, _ => false

/-- `(\d+(?:\.\d+)?)\s*(?:ลิตร|l\b|lt)` (searched on the lowered names). -/
def reLiterLow : Re :=
  Re.seq (Re.group 1 reNum)
    (Re.seq spaces0 (Re.altList [Re.strLit "ลิตร",
      Re.seq (Re.strLit "l") Re.wb, Re.strLit "lt"]))

/-- Storage box capacity within 15% of the source volume. -/
def cbBoxCapacity (srcL tgtL : List Char) : Bool :=
  let kws := ["กล่องเก็บของ", "กล่องอเนกประสงค์", "storage box", "container"]
  if hasKw kws srcL && hasKw kws tgtL then
    match reGrp reLiterLow srcL 1, reGrp reLiterLow tgtL 1 with
    | some a, some b =>
      let s := parsePQ a
      let t := parsePQ b
      PQ.lt (pqNat 0) s && PQ.lt ⟨15, 100⟩ (PQ.div (PQ.absv (PQ.sub s t)) s)
    | _, _ => false
  else false

/-- Door frame colour (second colour table). -/
def cbDoorframeColor2 (srcL tgtL : List Char) : Bool :=
  let kws := ["วงกบ", "door frame", "วงกบประตู"]
  if hasKw kws srcL && hasKw kws tgtL then
    let cols := ["ออริจินอล", "โอ๊ค", "วอลนัท", "สัก", "เชอร์รี่", "มะฮอกกานี",
      "original", "oak", "walnut", "teak", "cherry", "mahogany", "ขาว", "white"]
    match lastHit cols srcL, lastHit cols tgtL with
    | some a, some b => a != b
    | _, _ => false
  else false

/-- Hinge grooved vs not grooved. -/
def cbHingeGroove (srcL tgtL : List Char) : Bool :=
  let kws := ["บานพับ", "hinge"]
  if hasKw kws srcL && hasKw kws tgtL then
    let sg := sIn "เซาะร่อง" srcL && !(sIn "ไม่เซาะร่อง" srcL)
    let tn := sIn "ไม่เซาะร่อง" tgtL
    let sn := sIn "ไม่เซาะร่อง" srcL
    let tg := sIn "เซาะร่อง" tgtL && !(sIn "ไม่เซาะร่อง" tgtL)
    (sg && tn) || (sn && tg)
  else false

/-- `(ฟ้า|น้ำเงิน|เขียว|ขาว|ส้ม).?(ขาว|ฟ้า|เขียว)` (on the lowered names). -/
def reTarpDual : Re :=
  Re.seq (Re.group 1 (Re.altList [Re.strLit "ฟ้า", Re.strLit "น้ำเงิน", Re.strLit "เขียว",
      Re.strLit "ขาว", Re.strLit "ส้ม"]))
    (Re.seq (Re.opt (Re.cls (fun c => c ≠ '\n')))
      (Re.group 2 (Re.altList [Re.strLit "ขาว", Re.strLit "ฟ้า", Re.strLit "เขียว"])))

/-- Tarp dual-colour vs single colour. -/
def cbTarp (srcL tgtL : List Char) : Bool :=
  let kws := ["ผ้าใบ", "tarp", "canvas"]
  if hasKw kws srcL && hasKw kws tgtL then
    reHas reTarpDual srcL && !reHas reTarpDual tgtL
  else false

/-- Ladder with a paint tray. -/
def cbLadderPaintTray (srcL tgtL : List Char) : Bool :=
  let kws := ["บันได", "ladder"]
  if hasKw kws srcL && hasKw kws tgtL then
    let spt := sIn "ถาดวางถังสี" srcL || sIn "paint tray" srcL
    let tpt := sIn "ถาดวางถังสี" tgtL || sIn "paint tray" tgtL
    let tht := sIn "มีถาด" tgtL || sIn "ถาด" tgtL || sIn "tray" tgtL
    spt && !tpt && tht
  else false

/-- Dining chair wood requirement. -/
def cbDiningWood (srcL tgtL : List Char) : Bool :=
  let kws := ["เก้าอี้ทานอาหาร", "เก้าอี้ห้องอาหาร", "dining chair"]
  if hasKw kws srcL && hasKw kws tgtL then
    (sIn "ไม้" srcL || sIn "wood" srcL) && !(sIn "ไม้" tgtL || sIn "wood" tgtL)
  else false

/-- Garden bench HDPE requirement. -/
def cbBench (srcL tgtL : List Char) : Bool :=
  let kws := ["ม้านั่ง", "bench"]
  if hasKw kws srcL && hasKw kws tgtL then
    (sIn "hdpe" srcL || sIn "ลายไม้" srcL) && !(sIn "hdpe" tgtL || sIn "ลายไม้" tgtL)
  else false

/-- `(\d+)\s*(?:เมตร|ม\.|m\b|meter)` (searched on the lowered names). -/
def reIntMeterLow : Re :=
  Re.seq (Re.group 1 digits1)
    (Re.seq spaces0 (Re.altList [Re.strLit "เมตร", Re.strLit "ม.",
      Re.seq (Re.strLit "m") Re.wb, Re.strLit "meter"]))

/-- Garden hose length within 10% of the source length. -/
def cbHoseLen (srcL tgtL : List Char) : Bool :=
  let kws := ["สายยาง", "hose", "โรล"]
  if hasKw kws srcL && hasKw kws tgtL then
    match reGrp reIntMeterLow srcL 1, reGrp reIntMeterLow tgtL 1 with
    | some a, some b =>
      let s := pqNat (parseNat a)
      let t := pqNat (parseNat b)
      PQ.lt (pqNat 0) s && PQ.lt ⟨1, 10⟩ (PQ.div (PQ.absv (PQ.sub s t)) s)
    | _, _ => false
  else false

/-- Folding table colour must match. -/
def cbTableColor (srcL tgtL : List Char) : Bool :=
  let kws := ["โต๊ะพับ", "folding table", "โต๊ะอเนกประสงค์"]
  if hasKw kws srcL && hasKw kws tgtL then
    let cols := ["ขาว", "ครีม", "เทา", "ดำ", "white", "cream", "gray", "black"]
    match lastHit cols srcL, lastHit cols tgtL with
    | some a, some b => a != b
    | _, _ => false
  else false

/-- Enamel cookware requirement. -/
def cbEnamel (srcL tgtL : List Char) : Bool :=
  let kws := ["กระทะ", "pan", "หม้อ", "pot"]
  if hasKw kws srcL && hasKw kws tgtL then
    let se := sIn "อีนาเมล" srcL || sIn "enamel" srcL || sIn "เคลือบอีนาเมล" srcL
    let te := sIn "อีนาเมล" tgtL || sIn "enamel" tgtL || sIn "เคลือบอีนาเมล" tgtL
    se && !te
  else false

/-- Pendant light vs chandelier. -/
def cbPendant (srcL tgtL : List Char) : Bool :=
  hasKw ["โคมไฟแขวน", "pendant", "ไฟห้อย"] srcL &&
  hasKw ["ไฟช่อ", "chandelier", "โคมช่อ"] tgtL

/-- Outdoor post lamp brand conflict. -/
def cbPostLampBrand (srcL tgtL : List Char) : Bool :=
  let kws := ["ไฟหัวเสา", "โคมไฟหัวเสา", "post lamp", "pillar lamp"]
  if hasKw kws srcL && hasKw kws tgtL then
    let brands := ["luzino", "carini", "lamptan", "philips", "eve"]
    match lastHit brands srcL, lastHit brands tgtL with
    | some a, some b => a != b
    | _, _ => false
  else false

/-- Outdoor wall lamp solar vs non-solar. -/
def cbWallLampSolar (srcL tgtL : List Char) : Bool :=
  let kws := ["ไฟผนังภายนอก", "โคมไฟผนังภายนอก", "outdoor wall lamp"]
  if hasKw kws srcL && hasKw kws tgtL then
    (sIn "solar" srcL || sIn "โซล่า" srcL) != (sIn "solar" tgtL || sIn "โซล่า" tgtL)
  else false

/-- Ceiling light remote requirement. -/
def cbCeilingRemote (srcL tgtL : List Char) : Bool :=
  let kws := ["โคมไฟเพดาน", "ไฟเพดาน", "ceiling light"]
  if hasKw kws srcL && hasKw kws tgtL then
    (sIn "รีโมต" srcL || sIn "remote" srcL) && !(sIn "รีโมต" tgtL || sIn "remote" tgtL)
  else false

/-- `(\d+)\s*(?:ลิตร|l\b|lt)` (searched on the lowered names). -/
def reIntLiterLow : Re :=
  Re.seq (Re.group 1 digits1)
    (Re.seq spaces0 (Re.altList [Re.strLit "ลิตร",
      Re.seq (Re.strLit "l") Re.wb, Re.strLit "lt"]))

/-- Air compressor tank volume within 15% of the source. -/
def cbCompressor (srcL tgtL : List Char) : Bool :=
  let kws := ["ปั๊มลม", "air compressor", "compressor"]
  if hasKw kws srcL && hasKw kws tgtL then
    match reGrp reIntLiterLow srcL 1, reGrp reIntLiterLow tgtL 1 with
    | some a, some b =>
      let s := pqNat (parseNat a)
      let t := pqNat (parseNat b)
      PQ.lt (pqNat 0) s && PQ.lt ⟨15, 100⟩ (PQ.div (PQ.absv (PQ.sub s t)) s)
    | _, _ => false
  else false

/-- Drawer cabinet style colour. -/
def cbDrawerStyle (srcL tgtL : List Char) : Bool :=
  let kws := ["ตู้ลิ้นชัก", "ลิ้นชัก", "drawer"]
  if hasKw kws srcL && hasKw kws tgtL then
    let styles := ["พาสเทล", "pastel", "ทึบ", "ใส", "clear"]
    match lastHit styles srcL, lastHit styles tgtL with
    | some a, some b => a != b
    | _, _ => false
  else false

/-- Garden ball valve vs mini ball valve (the `'mini' in source_lower`
disjunct reproduces the source as written). -/
def cbBallvalveMini (srcL tgtL : List Char) : Bool :=
  let kws := ["ก๊อกบอล", "บอลวาล์ว", "ball valve"]
  if hasKw kws srcL && hasKw kws tgtL then
    let sg := sIn "สนาม" srcL || sIn "garden" srcL || sIn "2 ทาง" srcL
    let tm := sIn "มินิ" tgtL || sIn "mini" srcL
    sg && tm
  else false

/-- Post vs wall vs pillar lamp types. -/
def cbLampTypes (srcL tgtL : List Char) : Bool :=
  let postK := ["โคมไฟหัวเสา", "ไฟหัวเสา", "post lamp"]
  let wallK := ["โคมไฟผนัง", "ไฟผนัง", "ไฟกิ่ง", "wall lamp"]
  let pillarK := ["โคมไฟเสาสนาม", "เสาสนาม", "pillar lamp", "garden lamp"]
  let sp := hasKw postK srcL
  let sw := hasKw wallK srcL
  let spi := hasKw pillarK srcL
  let tp := hasKw postK tgtL
  let tw := hasKw wallK tgtL
  let tpi := hasKw pillarK tgtL
  (sp && tw && !tp) || (sw && tp && !tw) || (spi && tw && !tpi)

/-- Ladder 2-way vs 1-way direction. -/
def cbLadderDirection (srcL tgtL : List Char) : Bool :=
  let kws := ["บันได", "ladder"]
  if hasKw kws srcL && hasKw kws tgtL then
    let s2 := sIn "ขึ้นลง 2 ทาง" srcL || sIn "2 ทาง" srcL || sIn "two way" srcL
    let s1 := sIn "ทางเดียว" srcL || sIn "ขึ้นลงทางเดียว" srcL || sIn "one way" srcL
    let t2 := sIn "ขึ้นลง 2 ทาง" tgtL || sIn "2 ทาง" tgtL || sIn "two way" tgtL
    (s2 && !t2) || (s1 && t2)
  else false

/-- Garden furniture set count / L-shape. -/
def cbGardenFurniture (srcL tgtL : List Char) : Bool :=
  let kws := ["ชุดโซฟาสนาม", "ชุดสนาม", "garden set", "sofa set"]
  if hasKw kws srcL && hasKw kws tgtL then
    let s4 := sIn "4 ชิ้น" srcL || sIn "ตัวแอล" srcL || sIn "l-shape" srcL
    let t2 := sIn "2 ที่นั่ง" tgtL || sIn "2-seat" tgtL
    let sl := sIn "ตัวแอล" srcL || sIn "l-shape" srcL
    (s4 && t2) || (sl && !(sIn "ตัวแอล" tgtL || sIn "l-shape" tgtL))
  else false

/-- Storage box colour must match. -/
def cbStorageColor (srcL tgtL : List Char) : Bool :=
  let kws := ["กล่องเก็บของ", "กล่องอเนกประสงค์", "storage box", "container"]
  if hasKw kws srcL && hasKw kws tgtL then
    let cols := ["เทา", "ขาว", "ฟ้า", "ชมพู", "เขียว", "gray", "white", "blue", "pink", "green"]
    match lastHit cols srcL, lastHit cols tgtL with
    | some a, some b => a != b
    | _, _ => false
  else false

/-- Lounge chair with footrest/stool or as a set. -/
def cbLoungeFootrest (srcL tgtL : List Char) : Bool :=
  let kws := ["เก้าอี้พักผ่อน", "เก้าอี้ปรับเอน", "recliner", "lounge chair"]
  if hasKw kws srcL && hasKw kws tgtL then
    let sst := sIn "สตูล" srcL || sIn "วางเท้า" srcL || sIn "footrest" srcL || sIn "ottoman" srcL
    let tst := sIn "สตูล" tgtL || sIn "วางเท้า" tgtL || sIn "footrest" tgtL || sIn "ottoman" tgtL
    let sset := sIn "ชุด" srcL || sIn "ชิ้น/ชุด" srcL
    (sst && !tst) || (sset && !tst)
  else false

/-- `(\d+(?:\.\d+)?)\s*[xX×]\s*(\d+(?:\.\d+)?)\s*[xX×]\s*(\d+(?:\.\d+)?)`. -/
def reDim3 : Re :=
  Re.seq (Re.group 1 reNum)
    (Re.seq spaces0 (Re.seq xCls (Re.seq spaces0 (Re.seq (Re.group 2 reNum)
      (Re.seq spaces0 (Re.seq xCls (Re.seq spaces0 (Re.group 3 reNum))))))))

/-- Drawer cabinet volume within 40% of the source volume. -/
def cbDrawerDims (srcL tgtL : List Char) : Bool :=
  let kws := ["ตู้ลิ้นชัก", "ลิ้นชัก", "drawer"]
  if hasKw kws srcL && hasKw kws tgtL then
    match reSearch reDim3 srcL, reSearch reDim3 tgtL with
    | some ms, some mt =>
      match ms.grp 1, ms.grp 2, ms.grp 3, mt.grp 1, mt.grp 2, mt.grp 3 with
      | some a1, some a2, some a3, some b1, some b2, some b3 =>
        let sv := PQ.mul (PQ.mul (parsePQ a1) (parsePQ a2)) (parsePQ a3)
        let tv := PQ.mul (PQ.mul (parsePQ b1) (parsePQ b2)) (parsePQ b3)
        PQ.lt (pqNat 0) sv && PQ.lt ⟨40, 100⟩ (PQ.div (PQ.absv (PQ.sub sv tv)) sv)
      | _, _, _, _, _, _ => false
    | _, _ => false
  else false

/-- Microfiber/cleaning cloth colour must match (extended keyword list). -/
def cbMicrofiberColor (srcL tgtL : List Char) : Bool :=
  let kws := ["ผ้าเช็ด", "ผ้าไมโครไฟเบอร์", "ผ้าอเนกประสงค์", "microfiber", "cleaning cloth"]
  if hasKw kws srcL && hasKw kws tgtL then
    let cols := ["เขียว", "เทา", "ชมพู", "ฟ้า", "เหลือง", "green", "gray", "pink", "blue", "yellow"]
    match lastHit cols srcL, lastHit cols tgtL with
    | some a, some b => a != b
    | _, _ => false
  else false

/-- Butterfly hinge requirement. -/
def cbHingeButterfly (srcL tgtL : List Char) : Bool :=
  let kws := ["บานพับ", "hinge"]
  if hasKw kws srcL && hasKw kws tgtL then
    (sIn "ผีเสื้อ" srcL || sIn "butterfly" srcL) && !(sIn "ผีเสื้อ" tgtL || sIn "butterfly" tgtL)
  else false

/-- Wire hanger colour, off-white distinguished from white. -/
def cbWireHanger (srcL tgtL : List Char) : Bool :=
  let kws := ["ไม้แขวนเสื้อลวด", "wire hanger", "ไม้แขวนลวด"]
  if hasKw kws srcL && (hasKw kws tgtL || sIn "ไม้แขวนเสื้อ" tgtL) then
    let cols := ["ขาว", "ฟ้า", "ชมพู", "เขียว", "ดำ", "ออฟไวท์",
      "white", "blue", "pink", "green", "black", "off-white"]
    let norm : Option String → Option String := fun c =>
      match c with
      | some s => if s = "ออฟไวท์" ∨ s = "off-white" then some "ออฟไวท์" else some s
      | none => none
    match norm (lastHit cols srcL), norm (lastHit cols tgtL) with
    | some a, some b => a != b
    | _, _ => false
  else false

/-- Paint roller striped vs plain (app.py 1891-1899). -/
def cbRollerStripe (srcL tgtL : List Char) : Bool :=
  let kws := ["ลูกกลิ้งทาสี", "paint roller", "ลูกกลิ้ง"]
  if hasKw kws srcL && hasKw kws tgtL then
    let ss := sIn "แถบ" srcL || sIn "stripe" srcL || sIn "ขาวแถบ" srcL
    let ts := sIn "แถบ" tgtL || sIn "stripe" tgtL || sIn "ขาวแถบ" tgtL
    ss && !ts
  else false

/-- `has_product_conflict` (app.py 527-1901): the literal term-pair loop
followed by every structural predicate, any positive rule short-circuiting
to `true`.  Each `cb…` definition embeds one block of the source, in
source order. -/
def has_product_conflict (source_name target_name : String) : Bool :=
  if source_name == "" || target_name == "" then false
  else
    let src := source_name.data
    let tgt := target_name.data
    let srcL := lowerL src
    let tgtL := lowerL tgt
    literalPairConflict srcL tgtL ||
    cbVolume source_name target_name ||
    cbSocketType src tgt ||
    cbBicycle src tgt srcL tgtL ||
    cbShadeNet src tgt srcL tgtL ||
    cbBlind src tgt srcL tgtL ||
    cbAuger src tgt srcL tgtL ||
    cbSocketCount src tgt ||
    cbHose src tgt srcL tgtL ||
    cbDownlightShape srcL tgtL ||
    cbLadderSteps src tgt srcL tgtL ||
    cbBrush src tgt srcL tgtL ||
    cbCrate srcL tgtL ||
    cbTrashColor srcL tgtL ||
    cbCart srcL tgtL ||
    cbDoorframeMat srcL tgtL ||
    cbHangerPack src tgt srcL tgtL ||
    cbClothPack src tgt srcL tgtL ||
    cbChairStool srcL tgtL ||
    cbScissors srcL tgtL ||
    cbHangingRolling srcL tgtL ||
    cbDrying srcL tgtL ||
    cbWpBox srcL tgtL ||
    cbSofa srcL tgtL ||
    cbStove src tgt srcL tgtL ||
    cbValve2Way srcL tgtL ||
    cbDishrackMat srcL tgtL ||
    cbDownlightMount srcL tgtL ||
    cbBroom srcL tgtL ||
    cbLadderTray srcL tgtL ||
    cbWoodTop srcL tgtL ||
    cbBaseboard srcL tgtL ||
    cbPanHandle srcL tgtL ||
    cbScaffoldWheel srcL tgtL ||
    cbDoorframeColor1 srcL tgtL ||
    cbWheelbarrow srcL tgtL ||
    cbHangerMat srcL tgtL ||
    cbRollerSize src tgt srcL tgtL ||
    cbLightColor srcL tgtL ||
    cbTrackLight srcL tgtL ||
    cbLedWall srcL tgtL ||
    cbScrewDim src tgt srcL tgtL ||
    cbKnob srcL tgtL ||
    cbStorageWheels srcL tgtL ||
    cbHangerWire srcL tgtL ||
    cbClothColor srcL tgtL ||
    cbMask srcL tgtL ||
    cbDishrackSize srcL tgtL ||
    cbDiningMat srcL tgtL ||
    cbBrushScraper srcL tgtL ||
    cbDrawerDoor srcL tgtL ||
    cbHangingRail srcL tgtL ||
    cbDoorDrilled srcL tgtL ||
    cbElecBox srcL tgtL ||
    cbWheelSize src tgt srcL tgtL ||
    cbToolset src tgt srcL tgtL ||
    cbTableSize src tgt srcL tgtL ||
    cbBallGate srcL tgtL ||
    cbCrateBox srcL tgtL ||
    cbFoam src tgt srcL tgtL ||
    cbWaitingSteel srcL tgtL ||
    cbThinner srcL tgtL ||
    cbScrewHead srcL tgtL ||
    cbGardenSet src tgt srcL tgtL ||
    cbBrushNatural srcL tgtL ||
    cbCookwareCoat srcL tgtL ||
    cbCaulk srcL tgtL ||
    cbLoungeColor srcL tgtL ||
    cbReel srcL tgtL ||
    cbHangerColor srcL tgtL ||
    cbDownlightE27 srcL tgtL ||
    cbPackGlobal srcL tgtL ||
    cbBoxCapacity srcL tgtL ||
    cbDoorframeColor2 srcL tgtL ||
    cbHingeGroove srcL tgtL ||
    cbTarp srcL tgtL ||
    cbLadderPaintTray srcL tgtL ||
    cbDiningWood srcL tgtL ||
    cbBench srcL tgtL ||
    cbHoseLen srcL tgtL ||
    cbTableColor srcL tgtL ||
    cbEnamel srcL tgtL ||
    cbPendant srcL tgtL ||
    cbPostLampBrand srcL tgtL ||
    cbWallLampSolar srcL tgtL ||
    cbCeilingRemote srcL tgtL ||
    cbCompressor srcL tgtL ||
    cbDrawerStyle srcL tgtL ||
    cbBallvalveMini srcL tgtL ||
    cbLampTypes srcL tgtL ||
    cbLadderDirection srcL tgtL ||
    cbGardenFurniture srcL tgtL ||
    cbStorageColor srcL tgtL ||
    cbLoungeFootrest srcL tgtL ||
    cbDrawerDims srcL tgtL ||
    cbMicrofiberColor srcL tgtL ||
    cbHingeButterfly srcL tgtL ||
    cbWireHanger srcL tgtL ||
    cbRollerStripe srcL tgtL

theorem conflict_sanity_brake :
    has_product_conflict "ล้อ ไม่มีเบรก" "ล้อ มีเบรก" = true := by decide

/-- Modelled from the claim's words (C3), for comparison with
`literalPairConflict`: the rule fires only when term A occurs in one name
and term B in the other AND the other term of the pair is not also present
on that side; if both terms appear on a side, the rule does not fire. -/
def literalPairFireSpec (source_lower target_lower : List Char) : Bool :=
  PRODUCT_LINE_CONFLICTS.any (fun p =>
    let t1 := lowerL p.1.data
    let t2 := lowerL p.2.data
    ((subIn t1 source_lower && subIn t2 target_lower) ||
      (subIn t2 source_lower && subIn t1 target_lower)) &&
    !(subIn t1 source_lower && subIn t2 source_lower) &&
    !(subIn t1 target_lower && subIn t2 target_lower))

/-- C3 counterexample: with source "round square" and target "square", the
terms of the rule (round, square) both occur on the source side, so by the
claim the rule must not fire — yet the code reports a conflict. -/
theorem C3_counterexample :
    has_product_conflict "round square" "square" = true ∧
    literalPairConflict (lowerL "round square".data) (lowerL "square".data) = true ∧
    literalPairFireSpec (lowerL "round square".data) (lowerL "square".data) = false := by
  refine ⟨by decide, by decide, by decide⟩

/-- C3 amended: a literal term-pair rule fires exactly when term A occurs in
one lowered name and term B in the other (either direction), regardless of
whether the other term of the pair is also present on that side. -/
theorem C3_literal_rule (src tgt : String) :
    literalPairConflict (lowerL src.data) (lowerL tgt.data) = true ↔
    ∃ p ∈ PRODUCT_LINE_CONFLICTS,
      (subIn (lowerL p.1.data) (lowerL src.data) = true ∧
       subIn (lowerL p.2.data) (lowerL tgt.data) = true) ∨
      (subIn (lowerL p.2.data) (lowerL src.data) = true ∧
       subIn (lowerL p.1.data) (lowerL tgt.data) = true) := by
  simp [literalPairConflict, List.any_eq_true]

/-- C10: conflict detection is not symmetric.  A striped paint roller as
source conflicts with a plain roller target (stripe predicate, app.py
1891-1899), but not in the opposite direction. -/
theorem C10_conflict_asymmetric :
    has_product_conflict "ลูกกลิ้งทาสีแถบ" "ลูกกลิ้งทาสี" = true ∧
    has_product_conflict "ลูกกลิ้งทาสี" "ลูกกลิ้งทาสีแถบ" = false := by
  refine ⟨by decide, by decide⟩

/-! ## Attribute Extractor (`extract_size_specs`, app.py 1903-2100) -/

/-- The dict produced by `extract_size_specs`: named spec keys plus the
`identifiers` and `numeric_values` entries (empty list = key absent). -/
structure SpecSet where
  entries : List (String × String)
  identifiers : List String
  numerics : List (PQ × String)
deriving DecidableEq

/-- `spec_key in specs` / `specs[spec_key]`. -/
def SpecSet.findS (s : SpecSet) (k : String) : Option String :=
  (s.entries.find? (fun p => p.1 == k)).map (·.2)

/-- `not specs` (the whole dict is empty). -/
def SpecSet.isEmptyS (s : SpecSet) : Bool :=
  s.entries.isEmpty && s.identifiers.isEmpty && s.numerics.isEmpty

/-- The empty ExtractedSpecSet. -/
def emptySpecSet : SpecSet := ⟨[], [], []⟩

/-- `(\d+(?:[,\.]\d+)?)` — a number allowing a comma as decimal mark. -/
def reNumComma : Re :=
  Re.seq digits1 (Re.opt (Re.seq (Re.cls (fun c => c == ',' || c == '.')) digits1))

/-- Volume pattern `(\d+(?:[,\.]\d+)?)\s*(L|ลิตร|แกลลอน|GAL|ML|มล\.|กก\.|KG)`, CI. -/
def reVolumeSpec : Re :=
  Re.seq (Re.group 1 reNumComma)
    (Re.seq spaces0 (Re.group 2 (Re.altList [Re.strLitCI "L", Re.strLit "ลิตร",
      Re.strLit "แกลลอน", Re.strLitCI "GAL", Re.strLitCI "ML", Re.strLit "มล.",
      Re.strLit "กก.", Re.strLitCI "KG"])))

/-- `(\d+(?:\.\d+)?)\s*[Xx×]\s*(\d+(?:\.\d+)?)`. -/
def reDimSpec : Re :=
  Re.seq (Re.group 1 reNum)
    (Re.seq spaces0 (Re.seq xCls (Re.seq spaces0 (Re.group 2 reNum))))

/-- `(\d+(?:[,\.]\d+)?)\s*(W|วัตต์|WATT|watt)`, CI. -/
def reWattSpec : Re :=
  Re.seq (Re.group 1 reNumComma)
    (Re.seq spaces0 (Re.altList [Re.strLitCI "W", Re.strLit "วัตต์", Re.strLitCI "WATT"]))

/-- `(\d+/\d+)\s*(นิ้ว|INCH|"|″|inch)`, CI. -/
def reFracInchSpec : Re :=
  Re.seq (Re.group 1 (Re.seq digits1 (Re.seq (Re.cls (fun c => c == '/')) digits1)))
    (Re.seq spaces0 inchUnit)

/-- `(E27|E14|GU10|MR16)[Xx]?(\d+)?`, CI. -/
def reSocketSpec : Re :=
  Re.seq (Re.group 1 (Re.altList [Re.strLitCI "E27", Re.strLitCI "E14",
    Re.strLitCI "GU10", Re.strLitCI "MR16"]))
    (Re.seq (Re.opt xCls2) (Re.opt (Re.group 2 digits1)))

/-- `(\d+(?:\.\d+)?)\s*(เมตร|M\b|ม\.|METER|meter)`, CI. -/
def reMeterSpec : Re :=
  Re.seq (Re.group 1 reNum)
    (Re.seq spaces0 (Re.altList [Re.strLit "เมตร", Re.seq (Re.strLitCI "M") Re.wb,
      Re.strLit "ม.", Re.strLitCI "METER"]))

/-- `(\d+(?:\.\d+)?)\s*(เซนติเมตร|CM|ซม\.)`, CI. -/
def reCmSpec : Re :=
  Re.seq (Re.group 1 reNum)
    (Re.seq spaces0 (Re.altList [Re.strLit "เซนติเมตร", Re.strLitCI "CM", Re.strLit "ซม."]))

/-- `LED\s*(\d+)\s*W`, CI. -/
def reLedSpec : Re :=
  Re.seq (Re.strLitCI "LED")
    (Re.seq spaces0 (Re.seq (Re.group 1 digits1) (Re.seq spaces0 (Re.strLitCI "W"))))

/-- `(\d+)\s*(ช่อง|OUTLET|outlet|WAY|way)`, CI. -/
def reOutletSpec : Re :=
  Re.seq (Re.group 1 digits1)
    (Re.seq spaces0 (Re.altList [Re.strLit "ช่อง", Re.strLitCI "OUTLET", Re.strLitCI "WAY"]))

/-- `(\d+)\s*[xX×]?\s*(\d+)?\s*(ขั้น|STEP|step)`, CI. -/
def reStepsSpec : Re :=
  Re.seq (Re.group 1 digits1)
    (Re.seq spaces0 (Re.seq (Re.opt xCls) (Re.seq spaces0 (Re.seq
      (Re.opt (Re.group 2 digits1))
      (Re.seq spaces0 (Re.altList [Re.strLit "ขั้น", Re.strLitCI "STEP"]))))))

/-- `(\d+)\s*(ชิ้น|PCS|pcs|PIECE|piece|แพ็ก|PACK|pack)`, CI. -/
def rePackSpec : Re :=
  Re.seq (Re.group 1 digits1)
    (Re.seq spaces0 (Re.altList [Re.strLit "ชิ้น", Re.strLitCI "PCS", Re.strLitCI "PIECE",
      Re.strLit "แพ็ก", Re.strLitCI "PACK"]))

/-- `(\d+)\s*(เส้น|LINE|line|LINES|lines|BAR|bar|BARS|bars)`, CI. -/
def reLinesSpec : Re :=
  Re.seq (Re.group 1 digits1)
    (Re.seq spaces0 (Re.altList [Re.strLit "เส้น", Re.strLitCI "LINE", Re.strLitCI "LINES",
      Re.strLitCI "BAR", Re.strLitCI "BARS"]))

/-- `(\d+)\s*(ชั้น|TIER|tier|LEVEL|level)`, CI. -/
def reTiersSpec : Re :=
  Re.seq (Re.group 1 digits1)
    (Re.seq spaces0 (Re.altList [Re.strLit "ชั้น", Re.strLitCI "TIER", Re.strLitCI "LEVEL"]))

/-- `(\d+/\d+|\d+(?:\.\d+)?)\s*(นิ้ว|")`. -/
def reHoseDiamSpec : Re :=
  Re.seq (Re.group 1 (Re.alt (Re.seq digits1 (Re.seq (Re.cls (fun c => c == '/')) digits1))
    reNum))
    (Re.seq spaces0 (Re.altList [Re.strLit "นิ้ว", Re.strLit "\""]))

/-- `รุ่น\s*([A-Z0-9\-\.\/]+)`, CI. -/
def reModelSpec : Re :=
  Re.seq (Re.strLit "รุ่น")
    (Re.seq spaces0 (Re.group 1 (Re.plus (Re.cls (fun c =>
      c.isAlphanum || c == '-' || c == '.' || c == '/')))))

/-- `\b([A-Z]{1,3}[\-\s]?[A-Z0-9]{2,10}(?:[\-\/][A-Z0-9]+)?)\b`, CI. -/
def reIdentSpec : Re :=
  Re.seq Re.wb
    (Re.seq (Re.group 1 (Re.seq (Re.between 1 3 (Re.cls (fun c => c.isAlpha)))
      (Re.seq (Re.opt (Re.cls (fun c => c == '-' || isPySpace c)))
        (Re.seq (Re.between 2 10 (Re.cls (fun c => c.isAlphanum)))
          (Re.opt (Re.seq (Re.cls (fun c => c == '-' || c == '/'))
            (Re.plus (Re.cls (fun c => c.isAlphanum)))))))))
      Re.wb)

/-- `(\d+(?:\.\d+)?)\s*(นิ้ว|ซม\.|เมตร|วัตต์|W|CM|M|MM|")`, CI. -/
def reNumUnitSpec : Re :=
  Re.seq (Re.group 1 reNum)
    (Re.seq spaces0 (Re.group 2 (Re.altList [Re.strLit "นิ้ว", Re.strLit "ซม.",
      Re.strLit "เมตร", Re.strLit "วัตต์", Re.strLitCI "W", Re.strLitCI "CM",
      Re.strLitCI "M", Re.strLitCI "MM", Re.strLit "\""])))

/-- The stoplist of non-model tokens. -/
def nonModels : List String :=
  ["LED", "WPC", "PVC", "USB", "SMD", "MDF", "ABS", "DIY", "PRO", "MAX", "ECO"]

/-- The `volume` spec (app.py 1913-1928). -/
def specVolume (name : List Char) : Option String :=
  match reSearch reVolumeSpec name with
  | some m =>
    match m.grp 1, m.grp 2 with
    | some v, some u =>
      let val := v.filter (fun c => c ≠ ',')
      let uu := upperL u
      let unit :=
        if uu = "ลิตร".data ∨ uu = "L".data then "L".data
        else if uu = "แกลลอน".data ∨ uu = "GAL".data then "GAL".data
        else if uu = "มล.".data ∨ uu = "ML".data then "ML".data
        else if uu = "กก.".data ∨ uu = "KG".data then "KG".data
        else uu
      some (String.mk (val ++ " ".data ++ unit))
    | _, _ => none
  | none => none

/-- The `dimensions` spec (app.py 1930-1934). -/
def specDimensions (name : List Char) : Option String :=
  match reSearch reDimSpec name with
  | some m =>
    match m.grp 1, m.grp 2 with
    | some a, some b => some (String.mk (a ++ "x".data ++ b))
    | _, _ => none
  | none => none

/-- The `wattage` spec (app.py 1936-1941). -/
def specWattage (raw : List Char) : Option String :=
  match reGrp reWattSpec raw 1 with
  | some v => some (String.mk (natToStr
      ((parsePQ (v.filter (fun c => c ≠ ','))).trunc.toNat) ++ "W".data))
  | none => none

/-- The `size_inch` spec (app.py 1943-1954). -/
def specSizeInch (raw : List Char) : Option String :=
  match reGrp reFracInchSpec raw 1 with
  | some f => some (String.mk (f ++ " inch".data))
  | none =>
    match reGrp reNumInch raw 1 with
    | some v => some (String.mk (v ++ " inch".data))
    | none => none

/-- The `socket` spec (app.py 1956-1962). -/
def specSocket (name : List Char) : Option String :=
  match reSearch reSocketSpec name with
  | some m =>
    match m.grp 1 with
    | some t =>
      let cnt := (m.grp 2).getD "1".data
      some (String.mk (upperL t ++ "x".data ++ cnt))
    | none => none
  | none => none

/-- The `length` spec (app.py 1964-1968). -/
def specLength (raw : List Char) : Option String :=
  match reGrp reMeterSpec raw 1 with
  | some v => some (String.mk (v ++ "M".data))
  | none => none

/-- The `length_cm` spec (app.py 1970-1975). -/
def specLengthCm (raw : List Char) : Option String :=
  match reGrp reCmSpec raw 1 with
  | some v => some (String.mk (v ++ "CM".data))
  | none => none

/-- The `led_wattage` spec (app.py 1977-1981). -/
def specLedWattage (name : List Char) : Option String :=
  match reGrp reLedSpec name 1 with
  | some v => some (String.mk ("LED ".data ++ v ++ "W".data))
  | none => none

/-- The `color_temp` spec (app.py 1983-1992). -/
def specColorTemp (name raw : List Char) : Option String :=
  if sIn "DL" name || sIn "DAYLIGHT" name || sIn "เดย์ไลท์" raw then some "DAYLIGHT"
  else if sIn "WW" name || sIn "WARM" name || sIn "วอร์ม" raw then some "WARMWHITE"
  else if sIn "CW" name || sIn "COOL" name || sIn "คูล" raw then some "COOLWHITE"
  else none

/-- The `outlets` spec (app.py 1994-1998). -/
def specOutlets (raw : List Char) : Option String :=
  match reGrp reOutletSpec raw 1 with
  | some v => some (String.mk (v ++ " outlets".data))
  | none => none

/-- The `steps` spec (app.py 2000-2008). -/
def specSteps (raw : List Char) : Option String :=
  match reSearch reStepsSpec raw with
  | some m =>
    match m.grp 2 with
    | some b => some (String.mk (b ++ " steps".data))
    | none =>
      match m.grp 1 with
      | some a => some (String.mk (a ++ " steps".data))
      | none => none
  | none => none

/-- The `pack_count` spec (app.py 2010-2014). -/
def specPackCount (raw : List Char) : Option String :=
  match reGrp rePackSpec raw 1 with
  | some v => some (String.mk (v ++ " pcs".data))
  | none => none

/-- The `lines` spec (app.py 2016-2020). -/
def specLines (raw : List Char) : Option String :=
  match reGrp reLinesSpec raw 1 with
  | some v => some (String.mk (v ++ " lines".data))
  | none => none

/-- The `tiers` spec (app.py 2022-2026). -/
def specTiers (raw : List Char) : Option String :=
  match reGrp reTiersSpec raw 1 with
  | some v => some (String.mk (v ++ " tiers".data))
  | none => none

/-- The `brake` spec (app.py 2028-2032). -/
def specBrake (raw lowered : List Char) : Option String :=
  if sIn "ไม่มีเบรก" raw || sIn "ไม่มีเบรค" raw || sIn "no brake" lowered then
    some "NO_BRAKE"
  else if sIn "มีเบรก" raw || sIn "มีเบรค" raw || sIn "with brake" lowered then
    some "HAS_BRAKE"
  else none

/-- The `roller_type` spec (app.py 2034-2038). -/
def specRollerType (raw lowered : List Char) : Option String :=
  if sIn "อะไหล่" raw || sIn "refill" lowered then some "REFILL"
  else if sIn "ลูกกลิ้งทาสี" raw && !(sIn "อะไหล่" raw) then some "FULL"
  else none

/-- The `ladder_type` spec (app.py 2040-2044). -/
def specLadderType (raw lowered : List Char) : Option String :=
  if sIn "ทรง A" raw || sIn "ทรงA" raw || sIn "a-frame" lowered then some "A_FRAME"
  else if sIn "พับได้" raw || sIn "พับเก็บ" raw || sIn "foldable" lowered then
    some "FOLDABLE"
  else none

/-- The `ladder_direction` spec (app.py 2046-2050). -/
def specLadderDirection (raw lowered : List Char) : Option String :=
  if sIn "ขึ้นลง 2 ทาง" raw || sIn "2 ทาง" raw || sIn "2-way" lowered then some "2_WAY"
  else if sIn "ทางเดียว" raw || sIn "1-way" lowered then some "1_WAY"
  else none

/-- The `lamp_type` spec (app.py 2052-2062). -/
def specLampType (raw lowered : List Char) : Option String :=
  if sIn "โคมไฟกิ่ง" raw || sIn "branch lamp" lowered then some "BRANCH_LAMP"
  else if sIn "โคมไฟหัวเสา" raw || sIn "pole lamp" lowered || sIn "หัวเสา" raw then
    some "POLE_LAMP"
  else if sIn "โคมไฟแขวน" raw || sIn "hanging lamp" lowered || sIn "pendant" lowered then
    some "HANGING_LAMP"
  else if sIn "ไฟสนามเตี้ย" raw || sIn "garden lamp" lowered || sIn "สนามเตี้ย" raw then
    some "GARDEN_LOW_LAMP"
  else if sIn "โคมไฟผนัง" raw || sIn "ไฟผนัง" raw || sIn "wall lamp" lowered then
    some "WALL_LAMP"
  else none

/-- The `knob_room` spec (app.py 2064-2068). -/
def specKnobRoom (raw lowered : List Char) : Option String :=
  if sIn "ห้องน้ำ" raw || sIn "bathroom" lowered then some "BATHROOM"
  else if sIn "ห้องทั่วไป" raw || sIn "general" lowered || sIn "passage" lowered then
    some "GENERAL"
  else none

/-- The `hose_diameter` spec (app.py 2070-2073). -/
def specHoseDiameter (raw lowered : List Char) : Option String :=
  match reGrp reHoseDiamSpec raw 1 with
  | some v =>
    if sIn "สายยาง" raw || sIn "hose" lowered then
      some (String.mk (v ++ " inch".data))
    else none
  | none => none

/-- The `model` spec (app.py 2075-2079). -/
def specModel (raw : List Char) : Option String :=
  match reGrp reModelSpec raw 1 with
  | some v => some (String.mk (upperL v))
  | none => none

/-- The `identifiers` list (app.py 2081-2091). -/
def specIdentifiers (name : List Char) : List String :=
  ((reFindAll reIdentSpec name).filterMap (fun m => m.grp 1)).filterMap (fun idc =>
    let up := String.mk (upperL idc)
    if up ∉ nonModels ∧ 2 < idc.length then some up else none)

/-- The `numeric_values` list (app.py 2093-2098). -/
def specNumerics (raw : List Char) : List (PQ × String) :=
  (reFindAll reNumUnitSpec raw).filterMap (fun m =>
    match m.grp 1, m.grp 2 with
    | some v, some u => some (parsePQ v, String.mk (upperL u))
    | _, _ => none)

/-- A present key contributes one dict entry, an absent key none. -/
def optEntry (k : String) (v : Option String) : List (String × String) :=
  match v with
  | some s => [(k, s)]
  | none => []

/-- The named entries of `extract_size_specs`, in source insertion order. -/
def specEntries (raw name lowered : List Char) : List (String × String) :=
  optEntry "volume" (specVolume name) ++
  optEntry "dimensions" (specDimensions name) ++
  optEntry "wattage" (specWattage raw) ++
  optEntry "size_inch" (specSizeInch raw) ++
  optEntry "socket" (specSocket name) ++
  optEntry "length" (specLength raw) ++
  optEntry "length_cm" (specLengthCm raw) ++
  optEntry "led_wattage" (specLedWattage name) ++
  optEntry "color_temp" (specColorTemp name raw) ++
  optEntry "outlets" (specOutlets raw) ++
  optEntry "steps" (specSteps raw) ++
  optEntry "pack_count" (specPackCount raw) ++
  optEntry "lines" (specLines raw) ++
  optEntry "tiers" (specTiers raw) ++
  optEntry "brake" (specBrake raw lowered) ++
  optEntry "roller_type" (specRollerType raw lowered) ++
  optEntry "ladder_type" (specLadderType raw lowered) ++
  optEntry "ladder_direction" (specLadderDirection raw lowered) ++
  optEntry "lamp_type" (specLampType raw lowered) ++
  optEntry "knob_room" (specKnobRoom raw lowered) ++
  optEntry "hose_diameter" (specHoseDiameter raw lowered) ++
  optEntry "model" (specModel raw)

/-- `extract_size_specs` (app.py 1903-2100): each key produced by its
dedicated extractor above, inserted in source order. -/
def extract_size_specs (product_name : String) : SpecSet :=
  if product_name == "" then emptySpecSet
  else
    let raw := product_name.data
    let name := upperL raw
    let lowered := lowerL name
    { entries := specEntries raw name lowered,
      identifiers := specIdentifiers name,
      numerics := specNumerics raw }

/-- Sanity: the extractor on a concrete LED-bulb name. -/
theorem spec_sanity_watt :
    (extract_size_specs "หลอด LED 15W 6นิ้ว DAYLIGHT").findS "wattage" = some "15W" ∧
    (extract_size_specs "หลอด LED 15W 6นิ้ว DAYLIGHT").findS "size_inch" = some "6 inch" ∧
    (extract_size_specs "หลอด LED 15W 6นิ้ว DAYLIGHT").findS "color_temp" = some "DAYLIGHT" := by
  refine ⟨?_, ?_, ?_⟩ <;> decide

/-! ### The spec scorer (`calculate_spec_score`, app.py 2102-2288)

`matched_weight` and `total_weight` are carried tenfold throughout, so
that the fractional credits `0.8 * weight`, `0.5 * weight`, ... stay
integral; the final ratio `matched_weight / total_weight * 100` is
unchanged by the common factor. -/

/-- The weight table (app.py 2118-2140). `model` was removed from the
dict, so the `model` branch of the loop body is dead code. -/
def specWeights : List (String × Nat) :=
  [("wattage", 40), ("led_wattage", 40), ("size_inch", 30), ("socket", 25),
   ("volume", 25), ("length", 30), ("length_cm", 20), ("dimensions", 15),
   ("color_temp", 15), ("outlets", 25), ("steps", 30), ("pack_count", 30),
   ("lines", 30), ("tiers", 35), ("brake", 40), ("roller_type", 40),
   ("ladder_type", 35), ("ladder_direction", 30), ("lamp_type", 45),
   ("knob_room", 40), ("hose_diameter", 35)]

/-- `re.search(r'(\d+(?:\.\d+)?)', v)` followed by `float(...)`. -/
def firstNum (v : List Char) : Option PQ :=
  (reGrp (Re.group 1 reNum) v 1).map parsePQ

/-- `re.search(r'(\d+)', v)` followed by `int(...)` / `float(...)`. -/
def firstInt (v : List Char) : Option Nat :=
  (reGrp (Re.group 1 digits1) v 1).map digitsToNat

/-- Tenfold the credit one key adds to `matched_weight` when present on
both sides (the elif chain at app.py 2144-2257). -/
def keyCredit (k : String) (w : Nat) (sv tv : String) : Nat :=
  if sv == tv then 10 * w
  else if k == "wattage" || k == "led_wattage" then
    match firstNum sv.data, firstNum tv.data with
    | some sn, some tn =>
      if PQ.eqv sn tn then 10 * w
      else if PQ.lt (pqNat 0) sn then
        if PQ.le (PQ.div (PQ.absv (PQ.sub sn tn)) sn) ⟨1, 10⟩ then 8 * w
        else if PQ.le (PQ.div (PQ.absv (PQ.sub sn tn)) sn) ⟨2, 10⟩ then 5 * w
        else if PQ.le (PQ.div (PQ.absv (PQ.sub sn tn)) sn) ⟨3, 10⟩ then 2 * w
        else 0
      else 0
    | _, _ => 0
  else if k == "pack_count" then
    match firstInt sv.data, firstInt tv.data with
    | some sn, some tn =>
      if sn == tn then 10 * w
      else if 0 < sn then
        if PQ.le (PQ.div (PQ.absv (PQ.sub (pqNat sn) (pqNat tn))) (pqNat sn)) ⟨15, 100⟩ then 7 * w
        else if PQ.le (PQ.div (PQ.absv (PQ.sub (pqNat sn) (pqNat tn))) (pqNat sn)) ⟨3, 10⟩ then 3 * w
        else 0
      else 0
    | _, _ => 0
  else if k == "size_inch" then
    match firstNum sv.data, firstNum tv.data with
    | some sn, some tn =>
      if PQ.eqv sn tn then 10 * w
      else if PQ.lt (pqNat 0) sn &&
          PQ.le (PQ.div (PQ.absv (PQ.sub sn tn)) sn) ⟨5, 100⟩ then 7 * w
      else 0
    | _, _ => 0
  else if k == "steps" || k == "lines" then
    match firstInt sv.data, firstInt tv.data with
    | some sn, some tn => if sn == tn then 10 * w else 0
    | _, _ => 0
  else if k == "length" || k == "outlets" then
    match firstNum sv.data, firstNum tv.data with
    | some sn, some tn =>
      if PQ.eqv sn tn then 10 * w
      else if PQ.lt (pqNat 0) sn &&
          PQ.le (PQ.div (PQ.absv (PQ.sub sn tn)) sn) ⟨1, 10⟩ then 7 * w
      else 0
    | _, _ => 0
  else if k == "brake" || k == "roller_type" || k == "ladder_type" ||
      k == "ladder_direction" || k == "lamp_type" || k == "knob_room" then
    if sv == tv then 10 * w else 0
  else if k == "hose_diameter" then
    if sv == tv then 10 * w else 0
  else if k == "tiers" then
    match firstInt sv.data, firstInt tv.data with
    | some sn, some tn => if sn == tn then 10 * w else 0
    | _, _ => 0
  else 0

/-- One iteration of the `spec_weights` loop (app.py 2142-2257): a key
present in the source adds its tenfold weight to the running total
`acc.1`; if also present in the target its credit joins `acc.2`. -/
def scoreStep (src tgt : SpecSet) (acc : Nat × Nat) (kw : String × Nat) : Nat × Nat :=
  match src.findS kw.1 with
  | none => acc
  | some sv =>
    match tgt.findS kw.1 with
    | none => (acc.1 + 10 * kw.2, acc.2)
    | some tv => (acc.1 + 10 * kw.2, acc.2 + keyCredit kw.1 kw.2 sv tv)

/-- `len(set(a) & set(b))`. -/
def commonCount (a b : List String) : Nat :=
  (a.dedup.filter (fun x => decide (x ∈ b))).length

/-- A source numeric matches when some target numeric shares its unit
within 5% tolerance (app.py 2271-2276). -/
def numMatches (tgt : List (PQ × String)) (p : PQ × String) : Bool :=
  tgt.any (fun q => q.2 == p.2 &&
    PQ.le (PQ.div (PQ.absv (PQ.sub p.1 q.1)) (PQ.maxv p.1 (pqNat 1))) ⟨5, 100⟩)

/-- The identifier-overlap boost (app.py 2259-2269): distinct common
identifiers add `min(15 * count, 30)` to `matched_weight` and 30 to
`total_weight` (both tenfold here). -/
def idBoost (src tgt : SpecSet) (acc : Nat × Nat) : Nat × Nat :=
  if !src.identifiers.isEmpty && !tgt.identifiers.isEmpty then
    if 0 < commonCount src.identifiers tgt.identifiers then
      (acc.1 + 300,
       acc.2 + 10 * min (15 * commonCount src.identifiers tgt.identifiers) 30)
    else acc
  else acc

/-- The numeric-overlap boost (app.py 2272-2286): `int(25 * matching /
total)` joins `matched_weight` and 25 joins `total_weight` (tenfold). -/
def numBoost (src tgt : SpecSet) (acc : Nat × Nat) : Nat × Nat :=
  if !src.numerics.isEmpty && !tgt.numerics.isEmpty then
    if 0 < src.numerics.length ∧
        0 < (src.numerics.filter (numMatches tgt.numerics)).length then
      (acc.1 + 250,
       acc.2 + 10 * ((25 * (src.numerics.filter (numMatches tgt.numerics)).length) /
         src.numerics.length))
    else acc
  else acc

/-- `calculate_spec_score` (app.py 2102-2288). -/
def calculate_spec_score (source_specs target_specs : SpecSet) : Nat :=
  if source_specs.isEmptyS then 50
  else
    let r := numBoost source_specs target_specs
      (idBoost source_specs target_specs
        (specWeights.foldl (scoreStep source_specs target_specs) (0, 0)))
    if r.1 == 0 then 50
    else (r.2 * 100) / r.1

theorem keyCredit_le (k : String) (w : Nat) (sv tv : String) :
    keyCredit k w sv tv ≤ 10 * w := by
  unfold keyCredit
  repeat' split
  all_goals omega

theorem scoreStep_mono (src tgt : SpecSet) (l : List (String × Nat)) (ab : Nat × Nat)
    (h : ab.2 ≤ ab.1) :
    (l.foldl (scoreStep src tgt) ab).2 ≤ (l.foldl (scoreStep src tgt) ab).1 := by
  induction l generalizing ab with
  | nil => simpa using h
  | cons kw tl ih =>
    simp only [List.foldl_cons]
    apply ih
    unfold scoreStep
    cases hf : src.findS kw.1 with
    | none => simpa using h
    | some sv =>
      cases hg : tgt.findS kw.1 with
      | none => simp; omega
      | some tv =>
        have := keyCredit_le kw.1 kw.2 sv tv
        simp; omega

theorem mul_div_le_of_le (b a c : Nat) (h : b ≤ a) (ha : 0 < a) : b * c / a ≤ c := by
  calc b * c / a ≤ a * c / a := Nat.div_le_div_right (Nat.mul_le_mul_right c h)
  _ = c := Nat.mul_div_cancel_left c ha

theorem idBoost_mono (src tgt : SpecSet) (acc : Nat × Nat) (h : acc.2 ≤ acc.1) :
    (idBoost src tgt acc).2 ≤ (idBoost src tgt acc).1 := by
  unfold idBoost
  split
  · split
    · have : min (15 * commonCount src.identifiers tgt.identifiers) 30 ≤ 30 :=
        Nat.min_le_right _ _
      simp only
      omega
    · exact h
  · exact h

theorem numBoost_mono (src tgt : SpecSet) (acc : Nat × Nat) (h : acc.2 ≤ acc.1) :
    (numBoost src tgt acc).2 ≤ (numBoost src tgt acc).1 := by
  unfold numBoost
  split
  · split
    · rename_i hcond
      have hml : (src.numerics.filter (numMatches tgt.numerics)).length ≤
          src.numerics.length := List.length_filter_le _ _
      have hdiv : (25 * (src.numerics.filter (numMatches tgt.numerics)).length) /
          src.numerics.length ≤ 25 := by
        rw [Nat.mul_comm]
        exact mul_div_le_of_le _ _ _ hml hcond.1
      simp only
      omega
    · exact h
  · exact h

/-- C5: `calculate_spec_score` always lands in [0, 100] (the result is a
natural number, so only the upper bound is substantive), and an empty
source ExtractedSpecSet yields exactly 50 for every target. -/
theorem C5_score_bounds :
    (∀ t : SpecSet, calculate_spec_score emptySpecSet t = 50) ∧
    (∀ s t : SpecSet, calculate_spec_score s t ≤ 100) := by
  constructor
  · intro t
    rfl
  · intro s t
    unfold calculate_spec_score
    split
    · omega
    · have hbase := scoreStep_mono s t specWeights (0, 0) (le_refl 0)
      have hr := numBoost_mono s t _ (idBoost_mono s t _ hbase)
      generalize numBoost s t (idBoost s t (specWeights.foldl (scoreStep s t) (0, 0))) = r at hr
      show (if (r.1 == 0) = true then 50 else r.2 * 100 / r.1) ≤ 100
      split
      · omega
      · rename_i hnz
        simp only [beq_iff_eq] at hnz
        exact mul_div_le_of_le r.2 r.1 100 hr (Nat.pos_of_ne_zero hnz)

/-- C4 counterexample: the claim says a key absent from the target is not
penalized, but a source with only a `wattage` key scores 0 against an
empty target — while the same source against an identical target scores
100, so the absence alone reduced the score from 100 to 0. -/
theorem C4_counterexample :
    calculate_spec_score ⟨[("wattage", "10W")], [], []⟩ emptySpecSet = 0 ∧
    calculate_spec_score ⟨[("wattage", "10W")], [], []⟩ ⟨[("wattage", "10W")], [], []⟩ = 100 := by
  exact ⟨by decide, by decide⟩

/-- C4 (amended): a spec key present in the source but absent from the
target is penalized exactly like a worst mismatch — the loop adds the
key's full weight to `total_weight` and nothing to `matched_weight`. -/
theorem C4_absent_target_key (src tgt : SpecSet) (kw : String × Nat) (acc : Nat × Nat)
    (sv : String) (h1 : src.findS kw.1 = some sv) (h2 : tgt.findS kw.1 = none) :
    scoreStep src tgt acc kw = (acc.1 + 10 * kw.2, acc.2) := by
  unfold scoreStep
  rw [h1, h2]

theorem C4_absent_target_key_witness :
    scoreStep ⟨[("wattage", "10W")], [], []⟩ emptySpecSet (0, 0) ("wattage", 40) = (400, 0) :=
  C4_absent_target_key ⟨[("wattage", "10W")], [], []⟩ emptySpecSet ("wattage", 40) (0, 0)
    "10W" (by decide) (by decide)

/-! ### The two-tier recall pipeline (`ai_find_house_brand_alternatives`,
app.py 2406-2600)

The candidate-recall portion of the per-source loop is embedded as
`buildShortlist`.  Two genuine inputs of the computation are passed as
parameters: `f` stands for `fuzz.token_set_ratio` (the external fuzzy
text-similarity library, an integer in 0..100) and `pref` for
`get_preferred_brands(source_brand, retailer)` (the per-retailer
preferred-brand list). -/

/-- One catalog row: the fields of a product dict the recall pipeline
reads (`name`, `brand`, `url`, `current_price`). -/
structure Product where
  name : String
  brand : String
  url : String
  price : PQ
  deriving DecidableEq

/-- One candidate dict as appended at app.py 2519-2535 / 2541-2555. -/
structure Candidate where
  idx : Nat
  name : String
  brand : String
  category : String
  price : PQ
  specs : SpecSet
  spec_score : Nat
  text_sim : Nat
  brand_boost : Nat
  brand_rank : Int
  model_boost : Nat
  combined_score : PQ
  tier : String
  deriving DecidableEq

/-- ASCII lower-casing of a string (Python `str.lower()`). -/
def lowerS (s : String) : String := String.mk (lowerL s.data)

/-- The preferred-brand loop (app.py 2482-2493): the first preferred
brand matching the target brand wins; exact upper-cased equality gives
`max(20 - 3 * rank, 5)`, substring overlap `max(15 - 3 * rank, 3)`.
Returns `(brand_boost, brand_rank)`. -/
def brandBoostGo (tb : List Char) : List (Nat × String) → Nat × Int
  | [] => (0, -1)
  | (rank, pb) :: rest =>
    let pbu := upperL pb.data
    if pbu == tb then (max (20 - 3 * rank) 5, rank)
    else if subIn pbu tb || subIn tb pbu then (max (15 - 3 * rank) 3, rank)
    else brandBoostGo tb rest

/-- `brand_boost`/`brand_rank` with the `if preferred_brands and t_brand`
truthiness guard (app.py 2482-2484). -/
def brandBoost (preferred : List String) (tbrand : String) : Nat × Int :=
  if !preferred.isEmpty && tbrand != "" then
    brandBoostGo (upperL tbrand.data) (enumL preferred)
  else (0, -1)

/-- `model_boost` (app.py 2495-2502): 50 for equal upper-cased model
strings, 25 for substring overlap. -/
def modelBoost (srcSpecs tgtSpecs : SpecSet) : Nat :=
  let sm := (srcSpecs.findS "model").getD ""
  let tm := (tgtSpecs.findS "model").getD ""
  if sm != "" && tm != "" then
    if upperL sm.data == upperL tm.data then 50
    else if subIn (upperL sm.data) (upperL tm.data) ||
        subIn (upperL tm.data) (upperL sm.data) then 25
    else 0
  else 0

/-- The fixed critical-spec key list (app.py 2509). -/
def criticalKeys : List String :=
  ["wattage", "led_wattage", "size_inch", "volume", "dimensions", "socket",
   "tiers", "pack_count"]

/-- `critical_spec_matches` (app.py 2508-2512). -/
def criticalMatches (src tgt : SpecSet) : Nat :=
  (criticalKeys.filter (fun k =>
    match src.findS k, tgt.findS k with
    | some a, some b => a == b
    | _, _ => false)).length

/-- `spec_score = calculate_spec_score(source_specs, t_specs)` (2476). -/
def specScoreOf (src t : Product) : Nat :=
  calculate_spec_score (extract_size_specs src.name) (extract_size_specs t.name)

/-- `text_sim = fuzz.token_set_ratio(...)` applied to the normalized,
lower-cased names (app.py 2478-2480). -/
def textSimOf (f : String → String → Nat) (src t : Product) : Nat :=
  f (lowerS (normalize_text src.name)) (lowerS (normalize_text t.name))

/-- `price_diff = abs(t_price - source_price) / source_price` (2505). -/
def priceDiff (src t : Product) : PQ :=
  PQ.div (PQ.absv (PQ.sub t.price src.price)) src.price

/-- The resolved target brand (app.py 2464). -/
def targetBrand (t : Product) : String := extract_brand t.name t.brand t.url

/-- The candidate dict both append sites share (app.py 2519-2535 and
2541-2555); only `combined_score` and `tier` differ between tiers. -/
def mkCand (f : String → String → Nat) (pref : List String) (src : Product)
    (i : Nat) (t : Product) (tier : String) (comb : PQ) : Candidate :=
  { idx := i, name := t.name, brand := targetBrand t,
    category := extract_category t.name, price := t.price,
    specs := extract_size_specs t.name, spec_score := specScoreOf src t,
    text_sim := textSimOf f src t,
    brand_boost := (brandBoost pref (targetBrand t)).1,
    brand_rank := (brandBoost pref (targetBrand t)).2,
    model_boost := modelBoost (extract_size_specs src.name) (extract_size_specs t.name),
    combined_score := comb, tier := tier }

/-- `spec_score * 0.8 + text_sim * 0.15 + brand_boost * 0.5` (2518). -/
def specCombined (f : String → String → Nat) (pref : List String)
    (src t : Product) : PQ :=
  PQ.add (PQ.add (PQ.mul (pqNat (specScoreOf src t)) ⟨8, 10⟩)
    (PQ.mul (pqNat (textSimOf f src t)) ⟨15, 100⟩))
    (PQ.mul (pqNat (brandBoost pref (targetBrand t)).1) ⟨5, 10⟩)

/-- `spec_score * 0.6 + text_sim * 0.25 + brand_boost + model_boost`
(app.py 2540). -/
def fuzzyCombined (f : String → String → Nat) (pref : List String)
    (src t : Product) : PQ :=
  PQ.add (PQ.add (PQ.add (PQ.mul (pqNat (specScoreOf src t)) ⟨6, 10⟩)
    (PQ.mul (pqNat (textSimOf f src t)) ⟨25, 100⟩))
    (pqNat (brandBoost pref (targetBrand t)).1))
    (pqNat (modelBoost (extract_size_specs src.name) (extract_size_specs t.name)))

/-- The tier decision for one surviving target (app.py 2514-2555): the
spec tier takes 2+ critical matches or `spec_score >= 60` within 100%
price difference; otherwise the fuzzy tier takes any weak signal within
60% price difference. -/
def tierDecision (f : String → String → Nat) (pref : List String) (src : Product)
    (i : Nat) (t : Product) : Option Candidate :=
  if (2 ≤ criticalMatches (extract_size_specs src.name) (extract_size_specs t.name) ||
      60 ≤ specScoreOf src t) && PQ.le (priceDiff src t) (pqNat 1) then
    some (mkCand f pref src i t "spec" (specCombined f pref src t))
  else if PQ.le (priceDiff src t) ⟨6, 10⟩ then
    if 15 ≤ textSimOf f src t || 30 ≤ specScoreOf src t ||
        0 < (brandBoost pref (targetBrand t)).1 ||
        0 < modelBoost (extract_size_specs src.name) (extract_size_specs t.name) then
      some (mkCand f pref src i t "fuzzy" (fuzzyCombined f pref src t))
    else none
  else none

/-- The same-brand exclusion test (app.py 2466-2467): both resolved
brands non-empty and equal.  The source brand is resolved without a URL
(app.py 2434). -/
def sameBrandPair (src t : Product) : Bool :=
  extract_brand src.name src.brand "" != "" && targetBrand t != "" &&
    extract_brand src.name src.brand "" == targetBrand t

/-- One iteration of the target loop (app.py 2460-2555): the three
admission guards in source order, then the tier decision. -/
def candidateFor (f : String → String → Nat) (pref : List String) (src : Product)
    (i : Nat) (t : Product) : Option Candidate :=
  if PQ.le t.price (pqNat 0) then none
  else if sameBrandPair src t then none
  else if has_product_conflict src.name t.name then none
  else tierDecision f pref src i t

/-- Both tier lists in target order, before sorting (the loop 2460-2555). -/
def allCandidates (f : String → String → Nat) (pref : List String) (src : Product)
    (targets : List Product) : List Candidate :=
  (enumL targets).filterMap (fun p => candidateFor f pref src p.1 p.2)

/-- `spec_candidates.sort(key=spec_score, reverse=True)` (2560), stable. -/
def specSorted (f : String → String → Nat) (pref : List String) (src : Product)
    (targets : List Product) : List Candidate :=
  insSort (fun a b => decide (b.spec_score ≤ a.spec_score))
    ((allCandidates f pref src targets).filter (fun c => c.tier == "spec"))

/-- `fuzzy_candidates.sort(key=combined_score, reverse=True)` (2561) and
the `seen_indices` filter (2564): fuzzy candidates whose index was
admitted to the spec tier are dropped. -/
def fuzzyFiltered (f : String → String → Nat) (pref : List String) (src : Product)
    (targets : List Product) : List Candidate :=
  (insSort (fun a b => PQ.le b.combined_score a.combined_score)
    ((allCandidates f pref src targets).filter (fun c => c.tier == "fuzzy"))).filter
    (fun c => !((allCandidates f pref src targets).filter
      (fun c0 => c0.tier == "spec")).any (fun s0 => s0.idx == c.idx))

/-- The quality gate (app.py 2567-2574): three or more spec candidates
with `spec_score >= 60` crowd out all but ten fuzzy candidates;
otherwise the fuzzy tail fills the list up to forty. -/
def gateCandidates (f : String → String → Nat) (pref : List String) (src : Product)
    (targets : List Product) : List Candidate :=
  if 3 ≤ ((specSorted f pref src targets).filter (fun c => 60 ≤ c.spec_score)).length then
    ((specSorted f pref src targets).filter (fun c => 60 ≤ c.spec_score)).take 30 ++
      (fuzzyFiltered f pref src targets).take 10
  else
    specSorted f pref src targets ++
      (fuzzyFiltered f pref src targets).take (40 - (specSorted f pref src targets).length)

/-- `tier_priority` (app.py 2583-2584). -/
def tierPri (c : Candidate) : Nat := if c.tier == "spec" then 0 else 1

/-- The final sort key `(tier_priority, -spec_score, -combined_score)`
(app.py 2586), as the `insSort` order. -/
def finalLe (a b : Candidate) : Bool :=
  tierPri a < tierPri b ||
  (tierPri a == tierPri b &&
    (b.spec_score < a.spec_score ||
     (a.spec_score == b.spec_score && PQ.le b.combined_score a.combined_score)))

/-- The shortlist one source product hands to the adjudicator
(app.py 2444-2588): price guard, target loop, stable sorts, seen-index
filter, quality gate, final tier sort, top-40 cut. -/
def buildShortlist (f : String → String → Nat) (pref : List String) (src : Product)
    (targets : List Product) : List Candidate :=
  if PQ.le src.price (pqNat 0) then []
  else (insSort finalLe (gateCandidates f pref src targets)).take 40

theorem tierDecision_price (f : String → String → Nat) (pref : List String)
    (src : Product) (i : Nat) (t : Product) (c : Candidate)
    (h : tierDecision f pref src i t = some c) :
    c.price = t.price ∧ c.idx = i ∧
    ((c.tier = "spec" ∧ PQ.le (priceDiff src t) (pqNat 1) = true) ∨
     (c.tier = "fuzzy" ∧ PQ.le (priceDiff src t) ⟨6, 10⟩ = true)) := by
  unfold tierDecision at h
  split at h
  · rename_i hcond
    cases h
    refine ⟨rfl, rfl, Or.inl ⟨rfl, ?_⟩⟩
    exact (Bool.and_eq_true _ _).mp hcond |>.2
  · split at h
    · rename_i hpd
      split at h
      · cases h
        exact ⟨rfl, rfl, Or.inr ⟨rfl, hpd⟩⟩
      · exact absurd h (by simp)
    · exact absurd h (by simp)

theorem candidateFor_some (f : String → String → Nat) (pref : List String)
    (src : Product) (i : Nat) (t : Product) (c : Candidate)
    (h : candidateFor f pref src i t = some c) :
    PQ.le t.price (pqNat 0) = false ∧ sameBrandPair src t = false ∧
    has_product_conflict src.name t.name = false ∧
    tierDecision f pref src i t = some c := by
  unfold candidateFor at h
  split at h
  · exact absurd h (by simp)
  · split at h
    · exact absurd h (by simp)
    · split at h
      · exact absurd h (by simp)
      · rename_i h1 h2 h3
        exact ⟨Bool.of_not_eq_true h1, Bool.of_not_eq_true h2, Bool.of_not_eq_true h3, h⟩

theorem mem_allCandidates (f : String → String → Nat) (pref : List String)
    (src : Product) (targets : List Product) (c : Candidate)
    (h : c ∈ allCandidates f pref src targets) :
    ∃ i t, targets.get? i = some t ∧ candidateFor f pref src i t = some c := by
  unfold allCandidates at h
  obtain ⟨p, hp, hc⟩ := List.mem_filterMap.mp h
  exact ⟨p.1, p.2, mem_enumL targets p hp, hc⟩

theorem mem_gateCandidates (f : String → String → Nat) (pref : List String)
    (src : Product) (targets : List Product) (c : Candidate)
    (h : c ∈ gateCandidates f pref src targets) :
    c ∈ allCandidates f pref src targets := by
  unfold gateCandidates at h
  have hspec : c ∈ specSorted f pref src targets →
      c ∈ allCandidates f pref src targets := by
    intro hs
    unfold specSorted at hs
    exact (List.mem_filter.mp ((mem_insSort _ _ c).mp hs)).1
  have hfuzz : c ∈ fuzzyFiltered f pref src targets →
      c ∈ allCandidates f pref src targets := by
    intro hfz
    unfold fuzzyFiltered at hfz
    have := (List.mem_filter.mp hfz).1
    exact (List.mem_filter.mp ((mem_insSort _ _ c).mp this)).1
  split at h
  · rcases List.mem_append.mp h with h1 | h2
    · exact hspec (List.mem_filter.mp (mem_of_mem_takeL _ _ _ h1)).1
    · exact hfuzz (mem_of_mem_takeL _ _ _ h2)
  · rcases List.mem_append.mp h with h1 | h2
    · exact hspec h1
    · exact hfuzz (mem_of_mem_takeL _ _ _ h2)

theorem mem_buildShortlist (f : String → String → Nat) (pref : List String)
    (src : Product) (targets : List Product) (c : Candidate)
    (h : c ∈ buildShortlist f pref src targets) :
    PQ.le src.price (pqNat 0) = false ∧
    ∃ i t, targets.get? i = some t ∧ candidateFor f pref src i t = some c := by
  unfold buildShortlist at h
  split at h
  · exact absurd h (by simp)
  · rename_i hg
    refine ⟨Bool.of_not_eq_true hg, ?_⟩
    exact mem_allCandidates f pref src targets c
      (mem_gateCandidates f pref src targets c
        ((mem_insSort _ _ c).mp (mem_of_mem_takeL _ _ _ h)))

theorem pq_window (sp tp q : PQ) (hsp : PQ.le sp (pqNat 0) = false)
    (h : PQ.le (PQ.div (PQ.absv (PQ.sub tp sp)) sp) q = true) :
    PQ.le (PQ.absv (PQ.sub tp sp)) (PQ.mul q sp) = true := by
  have hn : 0 < sp.n := by
    simp only [PQ.le, pqNat, decide_eq_false_iff_not, not_le] at hsp
    omega
  have hneg : ¬ sp.n < 0 := by omega
  simp only [PQ.le, PQ.div, PQ.absv, PQ.sub, PQ.mul, pqNat, hneg, if_false,
    decide_eq_true_eq] at h ⊢
  push_cast at h ⊢
  rw [Int.toNat_of_nonneg (le_of_lt hn)] at h
  nlinarith [h]

/-- C6: every candidate in the final shortlist respects its tier's price
window: a fuzzy-tier candidate's price differs from the source price by
at most 60% of the source price, a spec-tier candidate's by at most
100% of it (the engine's exact fraction comparison `PQ.le`). -/
theorem C6_price_window (f : String → String → Nat) (pref : List String)
    (src : Product) (targets : List Product) :
    (buildShortlist f pref src targets).all (fun c =>
      PQ.le (PQ.absv (PQ.sub c.price src.price))
        (PQ.mul (if c.tier == "fuzzy" then ⟨6, 10⟩ else pqNat 1) src.price)) = true := by
  refine List.all_eq_true.mpr ?_
  intro c hc
  obtain ⟨hp, i, t, hi, hcf⟩ := mem_buildShortlist f pref src targets c hc
  obtain ⟨_, _, _, htd⟩ := candidateFor_some f pref src i t c hcf
  obtain ⟨hprice, _, hcase⟩ := tierDecision_price f pref src i t c htd
  rcases hcase with ⟨htier, hpd⟩ | ⟨htier, hpd⟩
  · rw [hprice, htier]
    simpa using pq_window src.price t.price (pqNat 1) hp hpd
  · rw [hprice, htier]
    simpa using pq_window src.price t.price ⟨6, 10⟩ hp hpd

/-- C7: a target whose resolved brand equals the non-empty resolved
source brand is rejected by the pre-scoring admission guard — its loop
iteration yields no candidate and its index never appears in the final
shortlist, even when the names are textually identical. -/
theorem C7_same_brand_excluded (f : String → String → Nat) (pref : List String)
    (src : Product) (targets : List Product) (i : Nat) (t : Product)
    (hb : extract_brand src.name src.brand "" ≠ "")
    (heq : extract_brand src.name src.brand "" = targetBrand t)
    (hi : targets.get? i = some t) :
    candidateFor f pref src i t = none ∧
    (buildShortlist f pref src targets).all (fun c => c.idx != i) = true := by
  have hsb : sameBrandPair src t = true := by
    unfold sameBrandPair
    rw [← heq]
    simp [bne_iff_ne, hb]
  have hnone : candidateFor f pref src i t = none := by
    unfold candidateFor
    rw [hsb]
    split <;> rfl
  refine ⟨hnone, List.all_eq_true.mpr ?_⟩
  intro c hc
  obtain ⟨hp, j, u, hj, hcf⟩ := mem_buildShortlist f pref src targets c hc
  have hidx : c.idx = j := (tierDecision_price f pref src j u c
    (candidateFor_some f pref src j u c hcf).2.2.2).2.1
  by_contra hne
  simp only [bne_iff_ne, ne_eq, not_not] at hne
  have hji : j = i := by rw [← hidx]; exact hne
  subst hji
  rw [hi] at hj
  cases hj
  rw [hnone] at hcf
  cases hcf

theorem C7_same_brand_excluded_witness :
    candidateFor (fun _ _ => 0) [] ⟨"TOA SHARK 1 GAL", "", "", ⟨100, 1⟩⟩ 0
      ⟨"TOA SHARK 1 GAL", "", "", ⟨100, 1⟩⟩ = none ∧
    (buildShortlist (fun _ _ => 0) [] ⟨"TOA SHARK 1 GAL", "", "", ⟨100, 1⟩⟩
      [⟨"TOA SHARK 1 GAL", "", "", ⟨100, 1⟩⟩]).all (fun c => c.idx != 0) = true :=
  C7_same_brand_excluded (fun _ _ => 0) []
    ⟨"TOA SHARK 1 GAL", "", "", ⟨100, 1⟩⟩ [⟨"TOA SHARK 1 GAL", "", "", ⟨100, 1⟩⟩] 0
    ⟨"TOA SHARK 1 GAL", "", "", ⟨100, 1⟩⟩ (by decide) (by decide) (by decide)

/-- C8: a pair the conflict detector rejects is excluded before scoring —
the target's loop iteration yields no candidate for either tier, and its
index is never present in the final shortlist handed to the adjudicator. -/
theorem C8_conflict_excluded (f : String → String → Nat) (pref : List String)
    (src : Product) (targets : List Product) (i : Nat) (t : Product)
    (hcfl : has_product_conflict src.name t.name = true)
    (hi : targets.get? i = some t) :
    candidateFor f pref src i t = none ∧
    (buildShortlist f pref src targets).all (fun c => c.idx != i) = true := by
  have hnone : candidateFor f pref src i t = none := by
    unfold candidateFor
    rw [hcfl]
    split
    · rfl
    · split <;> rfl
  refine ⟨hnone, List.all_eq_true.mpr ?_⟩
  intro c hc
  obtain ⟨hp, j, u, hj, hcf⟩ := mem_buildShortlist f pref src targets c hc
  have hidx : c.idx = j := (tierDecision_price f pref src j u c
    (candidateFor_some f pref src j u c hcf).2.2.2).2.1
  by_contra hne
  simp only [bne_iff_ne, ne_eq, not_not] at hne
  have hji : j = i := by rw [← hidx]; exact hne
  subst hji
  rw [hi] at hj
  cases hj
  rw [hnone] at hcf
  cases hcf

theorem C8_conflict_excluded_witness :
    candidateFor (fun _ _ => 0) [] ⟨"ล้อ ไม่มีเบรก", "", "", ⟨50, 1⟩⟩ 0
      ⟨"ล้อ มีเบรก", "", "", ⟨50, 1⟩⟩ = none ∧
    (buildShortlist (fun _ _ => 0) [] ⟨"ล้อ ไม่มีเบรก", "", "", ⟨50, 1⟩⟩
      [⟨"ล้อ มีเบรก", "", "", ⟨50, 1⟩⟩]).all (fun c => c.idx != 0) = true :=
  C8_conflict_excluded (fun _ _ => 0) []
    ⟨"ล้อ ไม่มีเบรก", "", "", ⟨50, 1⟩⟩ [⟨"ล้อ มีเบรก", "", "", ⟨50, 1⟩⟩] 0
    ⟨"ล้อ มีเบรก", "", "", ⟨50, 1⟩⟩ (by decide) (by decide)

/-- Python list indexing `xs[i]`: a negative index wraps from the end of
the list; an index out of range raises `IndexError` (`none` here, caught
by the surrounding `except` at app.py 2713-2714). -/
def pyIndex (xs : List α) (i : Int) : Option α :=
  if 0 ≤ i then xs.get? i.toNat
  else if 0 ≤ (xs.length : Int) + i then xs.get? ((xs.length : Int) + i).toNat
  else none

/-- The adjudicator's accept test (app.py 2696-2714) against a shortlist
of length `n`, with shortlist positions standing for candidates: a
non-null `match_index` with `confidence >= 60` is accepted whenever
`int(match_index) < len(top_candidates)` — the only range check the code
performs — and the match taken is `top_candidates[match_idx]`. -/
def oracleAccept (n : Nat) (matchIndex : Option Int) (confidence : Int) : Option Nat :=
  match matchIndex with
  | none => none
  | some mi =>
    if 60 ≤ confidence then
      if mi < (n : Int) then pyIndex (List.range n) mi
      else none
    else none

/-- C1: the claim says an oracle index outside [0, len(shortlist)) always
yields no match, and the code indeed rejects indices that are too large
and confidences below 60 — but its only range check is
`match_idx < len(top_candidates)`, so a negative index passes and Python
list indexing wraps around: `match_index = -1` with confidence 90 against
a 40-item shortlist silently accepts the last candidate (position 39). -/
theorem C1_negative_index_accepted :
    oracleAccept 40 (some (-1)) 90 = some 39 ∧
    oracleAccept 40 (some 41) 90 = none ∧
    oracleAccept 40 (some 0) 59 = none ∧
    oracleAccept 40 none 90 = none := by
  exact ⟨by decide, by decide, by decide, by decide⟩
